import Mathlib

/-!
Verification development for the restaurant-enrichment service.

The definitions below are a shallow embedding of the code in
src/api.py, src/scrapers/tripadvisor_scraper.py and
src/secondary_enrichment.py.  Conventions used throughout:

* Python dict values flowing through the pipeline are modelled by the
  inductive type PyVal (null, strings, numbers, lists of strings, and
  the small string-to-string maps used for the tertiary_updates field).
* Network effects (HTTP fetches and page parsing) are modelled as
  explicit oracle parameters: the value an oracle returns corresponds
  to whatever the network and the HTML parser produced at that call
  site.  An oracle returning an Except.error models a raised exception.
* Python float arithmetic is modelled by exact rational arithmetic.
  The transcendental haversine_distance function (math.sin, cos,
  atan2, sqrt on floats) is kept as an uninterpreted function
  parameter; no claim depends on its concrete values.
* difflib.SequenceMatcher (stdlib, called with isjunk=None) is
  embedded from its CPython source: the b2j table with the autojunk
  popularity cut, find_longest_match with its dynamic-programming scan
  and the two non-junk extension loops (the junk extension loops are
  no-ops because isjunk is None, so the junk set is empty), the
  recursive matching-block decomposition, and the 2*M/T ratio.
* The md5 content hash of a snapshot is modelled by the serialized
  string itself (an injective abstraction of the digest).
-/

/-- Model of the Python values that flow through this pipeline:
None, str, float, lists of strings (image URLs, opening-hours lines)
and the string-to-string dict stored under tertiary_updates. -/
inductive PyVal where
  | none
  | str (s : String)
  | num (q : ℚ)
  | strList (xs : List String)
  | updateMap (xs : List (String × String))
  deriving DecidableEq

/-- Python truthiness for the PyVal values above: None, the empty
string, 0.0, the empty list and the empty dict are falsy. -/
def truthy : PyVal → Bool
  | PyVal.none => false
  | PyVal.str s => s ≠ ""
  | PyVal.num q => q ≠ 0
  | PyVal.strList xs => xs ≠ []
  | PyVal.updateMap xs => xs ≠ []

/-- Membership test of a value in the tuple (None, [], ""), as used by
the fill-null loops in secondary_enrichment.py and
scrapers/tripadvisor_scraper.py. -/
def isNullish (v : PyVal) : Bool :=
  v = PyVal.none ∨ v = PyVal.str ("") ∨ v = PyVal.strList []

/-- Python truthiness of an optional float (None and 0.0 are falsy),
used for the coordinate guard in search_tripadvisor_validated. -/
def isTruthyQ : Option ℚ → Bool
  | Option.none => false
  | Option.some q => q ≠ 0

/-- Python truthiness of an optional string (None and the empty string
are falsy). -/
def isTruthyS : Option String → Bool
  | Option.none => false
  | Option.some s => s ≠ ""

/-! ### difflib.SequenceMatcher, embedded from the CPython source

Strings are handled as lists of characters; a is the first argument
and b the second, exactly as in SequenceMatcher(None, a, b). -/

/-- Character of s at index i (indices produced by the algorithm are
always in range; the default is irrelevant). -/
def charAt (s : List Char) (i : Nat) : Char :=
  s.getD i (Char.ofNat 0)

/-- The list of positions of character c in b, ascending: the b2j
table built by SequenceMatcher.__chain_b before the autojunk cut. -/
def b2jAll (b : List Char) (c : Char) : List Nat :=
  (List.range b.length).filter (fun j => decide (charAt b j = c))

/-- The b2j table after the autojunk cut: when b has at least 200
elements, characters occurring more than len(b)/100 times are deleted
from the table (isjunk is None at every call site in this repository,
so the separate junk set stays empty). -/
def b2jFun (b : List Char) (c : Char) : List Nat :=
  let js := b2jAll b c
  if 200 ≤ b.length ∧ b.length / 100 < js.length then [] else js

/-- Reading j2len.get(j-1, 0) over Nat indices: Python index -1 is
absent from the dict, hence 0. -/
def prevOf (f : Nat → Nat) (j : Nat) : Nat :=
  if j = 0 then 0 else f (j - 1)

/-- One row of the find_longest_match dynamic program: scan the
(b-side ascending) occurrence list js of character a[i], update the
best block whenever the run length k ending at (i, j) exceeds it. -/
def flmRowBest (i : Nat) (f : Nat → Nat) (js : List Nat) (st : Nat × Nat × Nat) :
    Nat × Nat × Nat :=
  js.foldl
    (fun bst j =>
      let k := prevOf f j + 1
      if bst.2.2 < k then (i + 1 - k, j + 1 - k, k) else bst)
    st

/-- The row-by-row loop of find_longest_match.  The state carries the
best block found so far and the j2len dictionary of the previous row,
represented as a total function that is 0 outside the dict. -/
def flmLoop (a : List Char) (b2j : Char → List Nat) (blo bhi : Nat) :
    List Nat → ((Nat × Nat × Nat) × (Nat → Nat)) → ((Nat × Nat × Nat) × (Nat → Nat))
  | [], st => st
  | i :: is, (best, f) =>
      let js := (b2j (charAt a i)).filter (fun j => decide (blo ≤ j) && decide (j < bhi))
      let best1 := flmRowBest i f js best
      let f1 := fun j => if js.contains j then prevOf f j + 1 else 0
      flmLoop a b2j blo bhi is (best1, f1)

/-- The first while loop after the scan: extend the best block
downward over equal (non-junk) characters.  The fuel argument bounds
the iteration count; besti - alo iterations suffice. -/
def extendLo (a b : List Char) (alo blo : Nat) :
    Nat → Nat × Nat × Nat → Nat × Nat × Nat
  | 0, st => st
  | fuel + 1, (bi, bj, bs) =>
      if alo < bi ∧ blo < bj ∧ charAt a (bi - 1) = charAt b (bj - 1) then
        extendLo a b alo blo fuel (bi - 1, bj - 1, bs + 1)
      else (bi, bj, bs)

/-- The second while loop: extend the best block upward over equal
(non-junk) characters. -/
def extendHi (a b : List Char) (ahi bhi : Nat) :
    Nat → Nat × Nat × Nat → Nat × Nat × Nat
  | 0, st => st
  | fuel + 1, (bi, bj, bs) =>
      if bi + bs < ahi ∧ bj + bs < bhi ∧ charAt a (bi + bs) = charAt b (bj + bs) then
        extendHi a b ahi bhi fuel (bi, bj, bs + 1)
      else (bi, bj, bs)

/-- find_longest_match(alo, ahi, blo, bhi) of SequenceMatcher: the
dynamic-programming scan followed by the two extension loops (the two
junk-set extension loops of the original are identities here because
isjunk is None, making the junk set empty). -/
def find_longest_match (a b : List Char) (b2j : Char → List Nat)
    (alo ahi blo bhi : Nat) : Nat × Nat × Nat :=
  let st := flmLoop a b2j blo bhi (List.range' alo (ahi - alo)) ((alo, blo, 0), fun _ => 0)
  let e1 := extendLo a b alo blo st.1.1 st.1
  extendHi a b ahi bhi ahi e1

/-- Total size of the matching blocks of get_matching_blocks on the
range (alo, ahi, blo, bhi): the longest block plus the totals of the
two sub-ranges around it, with the same guards as the queue in the
CPython implementation.  The fuel bounds the recursion depth; since
every recursive call strictly shrinks (ahi - alo) + (bhi - blo), fuel
la + lb + 1 never runs out at top level. -/
def matchingTotal (a b : List Char) (b2j : Char → List Nat) :
    Nat → Nat → Nat → Nat → Nat → Nat
  | 0, _, _, _, _ => 0
  | fuel + 1, alo, ahi, blo, bhi =>
      let r := find_longest_match a b b2j alo ahi blo bhi
      if r.2.2 = 0 then 0
      else
        (if alo < r.1 ∧ blo < r.2.1 then matchingTotal a b b2j fuel alo r.1 blo r.2.1 else 0)
          + r.2.2
          + (if r.1 + r.2.2 < ahi ∧ r.2.1 + r.2.2 < bhi then
              matchingTotal a b b2j fuel (r.1 + r.2.2) ahi (r.2.1 + r.2.2) bhi
            else 0)

/-- Sum of matched sizes over all matching blocks of
SequenceMatcher(None, a, b). -/
def seqMatches (a b : List Char) : Nat :=
  matchingTotal a b (b2jFun b) (a.length + b.length + 1) 0 a.length 0 b.length

/-- SequenceMatcher.ratio(): 2*M/T where T is the total length (and
1.0 when T = 0, as in difflib._calculate_ratio). -/
def seqRatio (a b : List Char) : ℚ :=
  if a.length + b.length = 0 then 1
  else (2 * seqMatches a b : ℚ) / ((a.length : ℚ) + (b.length : ℚ))

/-! ### scrapers/tripadvisor_scraper.py: pure matching functions -/

/-- The STOPWORDS set removed during name normalization. -/
def STOPWORDS : List String :=
  ["the", "restaurant", "kitchen", "bar", "grill", "cafe", "bistro", "brasserie"]

/-- Named constants of the scraper module. -/
def MAX_CANDIDATES : Nat := 5

/-- Hard name-similarity threshold (0.80). -/
def MIN_NAME_SIMILARITY : ℚ := mkRat 4 5

/-- Hard distance threshold in meters (1000). -/
def MAX_DISTANCE_METERS : ℚ := 1000

/-- Acceptance threshold on the confidence score (0.75). -/
def MIN_CONFIDENCE_SCORE : ℚ := mkRat 3 4

/-- Word characters of the regular expression class backslash-w,
restricted to ASCII (the names exercised here are ASCII). -/
def pyWordChar (c : Char) : Bool :=
  c.isAlphanum || c = '_'

/-- Whitespace characters recognized by str.split() and the regular
expression class backslash-s (ASCII range). -/
def pySpace (c : Char) : Bool :=
  c = ' ' || c = '\t' || c = '\n' || c = '\r' || c = '\x0b' || c = '\x0c'

/-- str.split() with no separator: split on whitespace runs, dropping
empty fragments. -/
def splitWsAux : List Char → List Char → List (List Char)
  | [], cur => if cur = [] then [] else [cur.reverse]
  | c :: cs, cur =>
      if pySpace c then
        if cur = [] then splitWsAux cs [] else cur.reverse :: splitWsAux cs []
      else splitWsAux cs (c :: cur)

/-- Split a character list on whitespace. -/
def splitWs (s : List Char) : List (List Char) :=
  splitWsAux s []

/-- normalize_name: lowercase, replace characters that are neither
word characters nor whitespace by a space, tokenize on whitespace,
drop stopwords, rejoin with single spaces.  Falsy (empty) input
returns the empty string. -/
def normalize_name (name : String) : String :=
  if name = "" then ""
  else
    let lowered := name.data.map Char.toLower
    let cleaned := lowered.map (fun c => if pyWordChar c || pySpace c then c else ' ')
    let tokens := (splitWs cleaned).filter
      (fun t => t ≠ [] && !(STOPWORDS.contains (String.mk t)))
    String.intercalate (" ") (tokens.map String.mk)

/-- calculate_name_similarity: 0.0 if either normalized name is
empty, otherwise SequenceMatcher(None, norm1, norm2).ratio(). -/
def calculate_name_similarity (name1 name2 : String) : ℚ :=
  let norm1 := normalize_name name1
  let norm2 := normalize_name name2
  if norm1 = "" ∨ norm2 = "" then 0
  else seqRatio norm1.data norm2.data

/-- check_area_match: false on falsy input; otherwise normalize both
strings and test whether any area token longer than 2 characters is a
substring of the normalized address. -/
def listContainsSub (pat s : List Char) : Bool :=
  (List.range (s.length + 1)).any (fun i => decide ((s.drop i).take pat.length = pat))

/-- check_area_match of the scraper module. -/
def check_area_match (area address : String) : Bool :=
  if area = "" || address = "" then false
  else
    let areaNorm := normalize_name area
    let addressNorm := normalize_name address
    ((splitWs areaNorm.data).filter (fun t => decide (2 < t.length))).any
      (fun t => listContainsSub t addressNorm.data)

/-- Round-half-to-even at integer precision, the rounding used by the
Python builtin round (modelled on exact rationals). -/
def roundHalfEven (x : ℚ) : ℤ :=
  let f := ⌊x⌋
  let r := x - (f : ℚ)
  if r < mkRat 1 2 then f
  else if mkRat 1 2 < r then f + 1
  else if 2 ∣ f then f else f + 1

/-- round(x, 2) on exact rationals. -/
def roundTo2 (x : ℚ) : ℚ :=
  ((roundHalfEven (x * 100) : ℤ) : ℚ) / 100

/-- calculate_confidence_score: name weight 0.5, area weight 0.3 and,
when the distance is known, a distance score 1 - d/1000 clamped to
[0, 1] with weight 0.2; the result is rounded to 2 decimal places. -/
def calculate_confidence_score (name_sim : ℚ) (area_match : Bool)
    (distance_m : Option ℚ) : ℚ :=
  let score := name_sim * mkRat 1 2
  let score := score + (if area_match then (1 : ℚ) else 0) * mkRat 3 10
  let score :=
    match distance_m with
    | Option.some d => score + max 0 (min 1 (1 - d / MAX_DISTANCE_METERS)) * mkRat 1 5
    | Option.none => score
  roundTo2 score

/-! ### search_tripadvisor_validated and its collaborators

The search-results page and each candidate detail page come from the
network; they are modelled by oracle fields of SearchEnv.  The
geolocation oracle models scrape_candidate_geolocation end to end
(redirect resolution, final-URL pattern check, Restaurant JSON-LD
verification, image/geo/address extraction): a result with url = none
corresponds to that function's rejection tuple (None, None, None,
None, []), including its float(lat)-if-lat-else-None truthiness
conversion of coordinates. -/

/-- An anchor element from the search results page: its href
attribute and its displayed text. -/
structure Link where
  href : String
  text : String
  deriving DecidableEq

/-- A candidate as assembled by extract_candidate_details and later
enriched in the scoring loop. -/
structure Cand where
  url : String
  name : String
  lat : Option ℚ := Option.none
  lng : Option ℚ := Option.none
  address : Option String := Option.none
  images : List String := []
  deriving DecidableEq

/-- The tuple returned by scrape_candidate_geolocation. -/
structure GeoResult where
  url : Option String
  lat : Option ℚ := Option.none
  lng : Option ℚ := Option.none
  address : Option String := Option.none
  images : List String := []
  deriving DecidableEq

/-- The dict returned by search_tripadvisor_validated. -/
structure TAResult where
  url : Option String
  status : String
  confidence : Option ℚ
  distance_m : Option ℚ
  match_notes : String
  images : List String
  deriving DecidableEq

/-- A scored candidate of the selection loop. -/
structure Scored where
  cand : Cand
  name_similarity : ℚ
  distance_m : Option ℚ
  area_match : Bool
  confidence : ℚ
  deriving DecidableEq

/-- The external collaborators of one search_tripadvisor_validated
call.  searchPage is the list of anchors matched by the CSS selector
on the results page (an Except.error models a raised request
exception, carrying the exception text).  geo is the
scrape_candidate_geolocation collaborator.  dist is
haversine_distance, uninterpreted since it is transcendental float
math; its two first arguments are the query coordinates. -/
structure SearchEnv where
  searchPage : Except String (List Link)
  geo : String → GeoResult
  dist : ℚ → ℚ → ℚ → ℚ → ℚ

/-- Python repr of a float value, abstracted: the claims never
inspect the numeric text inside diagnostic notes, so an exact
num/den rendering stands in for the decimal float repr. -/
def pyFloatRepr (q : ℚ) : String :=
  toString q.num ++ "/" ++ toString q.den

/-- Truncate a string to n characters, as in the slicing str(e)[:n]. -/
def strTake (s : String) (n : Nat) : String :=
  String.mk (s.data.take n)

/-- href.startswith of a one-character string. -/
def startsWithChar (s : String) (c : Char) : Bool :=
  match s.data with
  | [] => false
  | d :: _ => d = c

/-- extract_candidate_details: keep only anchors whose href contains
the Restaurant_Review detail-page marker; absolute-ify relative
hrefs against the site base URL. -/
def extract_candidate_details (link : Link) : Option Cand :=
  if listContainsSub ("/Restaurant_Review-").data link.href.data then
    Option.some
      { url :=
          if startsWithChar link.href '/' then
            "https://www.tripadvisor.co.uk" ++ link.href
          else link.href,
        name := link.text }
  else Option.none

/-- STEP 1 of the search: walk the anchor list, breaking once
MAX_CANDIDATES candidates are collected. -/
def collectCandidates : List Link → List Cand → List Cand
  | [], acc => acc
  | l :: ls, acc =>
      if MAX_CANDIDATES ≤ acc.length then acc
      else
        match extract_candidate_details l with
        | Option.some c => collectCandidates ls (acc ++ [c])
        | Option.none => collectCandidates ls acc

/-- STEPS 2-6 of the search, per candidate in result order: name
similarity with hard rejection below MIN_NAME_SIMILARITY (checked
before any page fetch), geolocation fetch with page validation,
distance hard rejection when all four coordinates are truthy, area
match, confidence scoring.  The second component of the result is the
list of candidate URLs for which the detail-page fetch was issued,
in order. -/
def scoreCandidates (env : SearchEnv) (qname : String)
    (latitude longitude : Option ℚ) (area : Option String) :
    List Cand → List Scored × List String
  | [] => ([], [])
  | c :: cs =>
      let name_sim := calculate_name_similarity qname c.name
      if name_sim < MIN_NAME_SIMILARITY then
        scoreCandidates env qname latitude longitude area cs
      else
        let g := env.geo c.url
        let rest := scoreCandidates env qname latitude longitude area cs
        match g.url with
        | Option.none => (rest.1, c.url :: rest.2)
        | Option.some final_url =>
            let cand : Cand :=
              { url := final_url, name := c.name, lat := g.lat, lng := g.lng,
                address := g.address, images := g.images }
            if isTruthyQ latitude && isTruthyQ longitude
                && isTruthyQ g.lat && isTruthyQ g.lng then
              let d := env.dist (latitude.getD 0) (longitude.getD 0)
                (g.lat.getD 0) (g.lng.getD 0)
              if MAX_DISTANCE_METERS < d then (rest.1, c.url :: rest.2)
              else
                let am := if isTruthyS area && isTruthyS g.address then
                    check_area_match (area.getD ("")) (g.address.getD (""))
                  else false
                ({ cand := cand, name_similarity := name_sim,
                   distance_m := Option.some d, area_match := am,
                   confidence := calculate_confidence_score name_sim am (Option.some d) }
                  :: rest.1, c.url :: rest.2)
            else
              let am := if isTruthyS area && isTruthyS g.address then
                  check_area_match (area.getD ("")) (g.address.getD (""))
                else false
              ({ cand := cand, name_similarity := name_sim,
                 distance_m := Option.none, area_match := am,
                 confidence := calculate_confidence_score name_sim am Option.none }
                :: rest.1, c.url :: rest.2)

/-- Python max(list, key=f): the first element with maximal key. -/
def pyMaxBy (key : Scored → ℚ) : Scored → List Scored → Scored
  | best, [] => best
  | best, x :: xs => pyMaxBy key (if key best < key x then x else best) xs

/-- A not_found result with the given notes. -/
def taNotFound (notes : String) : TAResult :=
  { url := Option.none, status := "not_found", confidence := Option.none,
    distance_m := Option.none, match_notes := notes, images := [] }

/-- search_tripadvisor_validated, paired with the list of detail-page
fetches it performed (used to state the fetch-bound property; the
first component is exactly the returned dict). -/
def search_tripadvisor_validated (env : SearchEnv) (name : String)
    (city : String) (area : Option String)
    (latitude longitude : Option ℚ) : TAResult × List String :=
  match env.searchPage with
  | Except.error e => (taNotFound ("Search request failed: " ++ strTake e 50), [])
  | Except.ok links =>
      let candidates := collectCandidates links []
      if candidates = [] then
        (taNotFound ("No restaurant candidates found in search results"), [])
      else
        let sc := scoreCandidates env name latitude longitude area candidates
        match sc.1 with
        | [] =>
            (taNotFound ("All " ++ toString candidates.length
              ++ " candidates rejected (name similarity < 0.8, distance > 1000m, or invalid Restaurant page)"),
              sc.2)
        | s :: ss =>
            let best := pyMaxBy (fun x => x.confidence) s ss
            if best.confidence < MIN_CONFIDENCE_SCORE then
              (taNotFound ("Best candidate confidence (" ++ pyFloatRepr best.confidence
                ++ ") below threshold (0.75)"), sc.2)
            else
              ({ url := Option.some best.cand.url, status := "found",
                 confidence := Option.some best.confidence,
                 distance_m := best.distance_m,
                 match_notes := String.intercalate (" | ")
                   (["name_sim=" ++ pyFloatRepr best.name_similarity]
                     ++ (if best.area_match then ["area_match=true"] else [])
                     ++ (match best.distance_m with
                         | Option.some d => ["distance=" ++ pyFloatRepr d ++ "m"]
                         | Option.none => [])),
                 images := best.cand.images }, sc.2)

/-- Legacy search_tripadvisor: calls the validated search with city
only (area and coordinates default to None) and returns the url. -/
def search_tripadvisor (env : SearchEnv) (name : String) (city : String) :
    Option String :=
  (search_tripadvisor_validated env name city Option.none Option.none Option.none).1.url

/-! ### api.py: records, snapshots, merge and the tertiary pipeline -/

/-- A record of the pipeline (a Python dict).  Every key that the
embedded code reads is a field; a field holding PyVal.none plays the
role of both a missing key and an explicit None value, which agrees
with the dict.get accesses used throughout api.py. -/
structure Rec where
  google_place_id : PyVal := PyVal.none
  name : PyVal := PyVal.none
  website : PyVal := PyVal.none
  address : PyVal := PyVal.none
  city : PyVal := PyVal.none
  area : PyVal := PyVal.none
  latitude : PyVal := PyVal.none
  longitude : PyVal := PyVal.none
  phone : PyVal := PyVal.none
  opening_hours : PyVal := PyVal.none
  cuisine_type : PyVal := PyVal.none
  price_range : PyVal := PyVal.none
  tripadvisor_url : PyVal := PyVal.none
  tripadvisor_status : PyVal := PyVal.none
  tripadvisor_confidence : PyVal := PyVal.none
  tripadvisor_distance_m : PyVal := PyVal.none
  tripadvisor_match_notes : PyVal := PyVal.none
  tripadvisor_images : PyVal := PyVal.none
  tertiary_updates : PyVal := PyVal.none
  deriving DecidableEq

/-- A snapshot row as built by create_tertiary_snapshot: exactly the
eleven keys that function stores. -/
structure SnapRow where
  google_place_id : PyVal := PyVal.none
  name : PyVal := PyVal.none
  city : PyVal := PyVal.none
  area : PyVal := PyVal.none
  latitude : PyVal := PyVal.none
  longitude : PyVal := PyVal.none
  website : PyVal := PyVal.none
  existing_opening_hours : PyVal := PyVal.none
  existing_cuisine_type : PyVal := PyVal.none
  existing_price_range : PyVal := PyVal.none
  existing_phone : PyVal := PyVal.none
  deriving DecidableEq

/-- create_tertiary_snapshot: keep, in input order, the rows missing
at least one critical field, storing identity and location fields plus
the current values of the four critical fields. -/
def create_tertiary_snapshot (secondary_data : List Rec) : List SnapRow :=
  (secondary_data.filter
      (fun r => !truthy r.opening_hours || !truthy r.cuisine_type
        || !truthy r.price_range || !truthy r.phone)).map
    (fun r =>
      { google_place_id := r.google_place_id, name := r.name, city := r.city,
        area := r.area, latitude := r.latitude, longitude := r.longitude,
        website := r.website,
        existing_opening_hours := r.opening_hours,
        existing_cuisine_type := r.cuisine_type,
        existing_price_range := r.price_range,
        existing_phone := r.phone })

/-- Hexadecimal digit. -/
def hexDigit (n : Nat) : Char :=
  charAt ("0123456789abcdef").data (n % 16)

/-- JSON string escaping as performed by json.dumps with its default
ensure_ascii=True: escape the backslash, the double quote, the usual
control shorthands, other control characters and all non-ASCII
characters as backslash-u sequences. -/
def jsonEscapeChar (c : Char) : List Char :=
  if c = '"' then ['\\', '"']
  else if c = '\\' then ['\\', '\\']
  else if c = '\n' then ['\\', 'n']
  else if c = '\r' then ['\\', 'r']
  else if c = '\t' then ['\\', 't']
  else if c.toNat < 32 ∨ 127 ≤ c.toNat then
    ['\\', 'u', hexDigit (c.toNat / 4096), hexDigit (c.toNat / 256),
      hexDigit (c.toNat / 16), hexDigit c.toNat]
  else [c]

/-- A JSON string literal. -/
def jsonStr (s : String) : String :=
  "\"" ++ String.mk (s.data.flatMap jsonEscapeChar) ++ "\""

/-- json.dumps of a PyVal with sort_keys=True and default separators.
Floats are rendered through the same num/den abstraction as
pyFloatRepr (their decimal repr is irrelevant to the hashing claims,
which only use the injectivity and order sensitivity of dumps). -/
def jsonVal : PyVal → String
  | PyVal.none => "null"
  | PyVal.str s => jsonStr s
  | PyVal.num q => pyFloatRepr q
  | PyVal.strList xs => "[" ++ String.intercalate (", ") (xs.map jsonStr) ++ "]"
  | PyVal.updateMap xs =>
      "\x7b" ++ String.intercalate (", ")
        ((xs.mergeSort (fun p q => p.1 ≤ q.1)).map
          (fun p => jsonStr p.1 ++ ": " ++ jsonStr p.2)) ++ "\x7d"

/-- json.dumps(snapshot_row, sort_keys=True): one JSON object whose
keys appear in sorted order. -/
def dumpsSnapRow (r : SnapRow) : String :=
  "\x7b" ++ String.intercalate (", ")
    ["\"area\": " ++ jsonVal r.area,
     "\"city\": " ++ jsonVal r.city,
     "\"existing_cuisine_type\": " ++ jsonVal r.existing_cuisine_type,
     "\"existing_opening_hours\": " ++ jsonVal r.existing_opening_hours,
     "\"existing_phone\": " ++ jsonVal r.existing_phone,
     "\"existing_price_range\": " ++ jsonVal r.existing_price_range,
     "\"google_place_id\": " ++ jsonVal r.google_place_id,
     "\"latitude\": " ++ jsonVal r.latitude,
     "\"longitude\": " ++ jsonVal r.longitude,
     "\"name\": " ++ jsonVal r.name,
     "\"website\": " ++ jsonVal r.website] ++ "\x7d"

/-- json.dumps(snapshot, sort_keys=True): the list serialization.
Note that sort_keys sorts the keys inside each row dict; the order of
the rows in the list is preserved verbatim. -/
def dumpsSnapshot (rows : List SnapRow) : String :=
  "[" ++ String.intercalate (", ") (rows.map dumpsSnapRow) ++ "]"

/-- The md5 content hash of the serialized snapshot, modelled by the
serialized string itself (an injective stand-in for the digest). -/
def snapshotHash (rows : List SnapRow) : String :=
  dumpsSnapshot rows

/-- A stored snapshot: the value of tertiary_snapshots[snapshot_id]. -/
structure StoredSnapshot where
  data : List SnapRow
  locked : Bool
  hash : String
  deriving DecidableEq

/-- The in-memory snapshot store, in insertion order (Python dicts
iterate in insertion order). -/
abbrev SnapshotStore := List (String × StoredSnapshot)

/-- Response of the snapshot-creation endpoint. -/
structure CreateResp where
  tertiary_snapshot_id : String
  row_count : Nat
  status : String
  deriving DecidableEq

/-- The core of the create_snapshot endpoint, after payload parsing:
filter the dataset, hash the filtered rows, reuse the first stored
snapshot with an identical hash, otherwise persist a new entry under
the freshly generated id (freshId models the uuid4 draw). -/
def create_snapshot (store : SnapshotStore) (freshId : String)
    (secondary_data : List Rec) : CreateResp × SnapshotStore :=
  let snapshot := create_tertiary_snapshot secondary_data
  let h := snapshotHash snapshot
  match store.find? (fun e => decide (e.2.hash = h)) with
  | Option.some e =>
      ({ tertiary_snapshot_id := e.1, row_count := snapshot.length, status := "reused" },
        store)
  | Option.none =>
      ({ tertiary_snapshot_id := freshId, row_count := snapshot.length,
         status := "created" },
        store ++ [(freshId, { data := snapshot, locked := true, hash := h })])

/-- Lookup of the dict built by the comprehension in
merge_enriched_results: for duplicate identifiers the last fallback
entry wins, exactly as repeated dict assignment does. -/
def fallbackLookup (fallback_results : List Rec) (pid : PyVal) : Option Rec :=
  fallback_results.reverse.find? (fun f => decide (f.google_place_id = pid))

/-- The per-record merge of merge_enriched_results: fill each of the
four critical fields from the fallback only when the base value is
falsy, then copy the seven tracking fields from the fallback
unconditionally. -/
def mergeRecord (record fallback : Rec) : Rec :=
  { record with
    opening_hours :=
      if !truthy record.opening_hours then fallback.opening_hours
      else record.opening_hours,
    cuisine_type :=
      if !truthy record.cuisine_type then fallback.cuisine_type
      else record.cuisine_type,
    price_range :=
      if !truthy record.price_range then fallback.price_range
      else record.price_range,
    phone :=
      if !truthy record.phone then fallback.phone else record.phone,
    tripadvisor_url := fallback.tripadvisor_url,
    tripadvisor_status := fallback.tripadvisor_status,
    tertiary_updates := fallback.tertiary_updates,
    tripadvisor_confidence := fallback.tripadvisor_confidence,
    tripadvisor_distance_m := fallback.tripadvisor_distance_m,
    tripadvisor_match_notes := fallback.tripadvisor_match_notes,
    tripadvisor_images := fallback.tripadvisor_images }

/-- merge_enriched_results: merge fallback data into every base
record that has a fallback entry with the same identifier; records
without one pass through unchanged.  Order and length of the base
dataset are preserved. -/
def merge_enriched_results (base_dataset fallback_results : List Rec) : List Rec :=
  base_dataset.map (fun record =>
    match fallbackLookup fallback_results record.google_place_id with
    | Option.some fallback => mergeRecord record fallback
    | Option.none => record)

/-! ### The tertiary enrichment loop of /tertiary/enrich -/

/-- The enrichment dict returned by scrape_tripadvisor_page: a field
holding PyVal.none models an absent key. -/
structure PageData where
  opening_hours : PyVal := PyVal.none
  cuisine_type : PyVal := PyVal.none
  price_range : PyVal := PyVal.none
  phone : PyVal := PyVal.none
  deriving DecidableEq

/-- External collaborators of one /tertiary/enrich run: a search
world per row index, the scrape_tripadvisor_page collaborator (an
Except.error models a raised exception, which the loop must catch),
and the float(str) parser (Option.none models a ValueError). -/
structure RowEnv where
  searchEnvOf : Nat → SearchEnv
  scrapePage : Nat → String → Except String PageData
  parseFloat : String → Option ℚ

/-- The float coercion applied to a latitude or longitude value read
from a snapshot row: None passes through, floats are kept, strings go
through float(), anything else raises TypeError. -/
def coerceFloat (parse : String → Option ℚ) : PyVal → Except Unit (Option ℚ)
  | PyVal.none => Except.ok Option.none
  | PyVal.num q => Except.ok (Option.some q)
  | PyVal.str s =>
      match parse s with
      | Option.some q => Except.ok (Option.some q)
      | Option.none => Except.error ()
  | PyVal.strList _ => Except.error ()
  | PyVal.updateMap _ => Except.error ()

/-- The lat/lng conversion block of the row body: a ValueError or
TypeError from either conversion nulls both coordinates. -/
def parseCoords (parse : String → Option ℚ) (lat lng : PyVal) : Option ℚ × Option ℚ :=
  match coerceFloat parse lat, coerceFloat parse lng with
  | Except.ok a, Except.ok b => (a, b)
  | _, _ => (Option.none, Option.none)

/-- String content of a PyVal as consumed by normalize_name inside
the scraper: None (and any other falsy non-string) behaves exactly
like the empty string there, since both are falsy. -/
def pyStrOrEmpty : PyVal → String
  | PyVal.str s => s
  | _ => ""

/-- PyVal view of an optional string. -/
def pvOfOptStr : Option String → PyVal
  | Option.some s => PyVal.str s
  | Option.none => PyVal.none

/-- PyVal view of an optional rational. -/
def pvOfOptQ : Option ℚ → PyVal
  | Option.some q => PyVal.num q
  | Option.none => PyVal.none

/-- The result appended when the TripAdvisor result is accepted
(status found or weak_match): tracking fields from the search result,
critical fields filled from the scraped page only when the snapshot
recorded no existing value, and the updates map recording exactly the
fields that were filled. -/
def foundRec (r : SnapRow) (ta : TAResult) (pd : PageData) : Rec :=
  let updates :=
    (if !truthy r.existing_opening_hours && truthy pd.opening_hours then
      [("opening_hours", "filled_from_tripadvisor")] else [])
    ++ (if !truthy r.existing_cuisine_type && truthy pd.cuisine_type then
      [("cuisine_type", "filled_from_tripadvisor")] else [])
    ++ (if !truthy r.existing_price_range && truthy pd.price_range then
      [("price_range", "filled_from_tripadvisor")] else [])
    ++ (if !truthy r.existing_phone && truthy pd.phone then
      [("phone", "filled_from_tripadvisor")] else [])
  { google_place_id := r.google_place_id,
    tripadvisor_url := pvOfOptStr ta.url,
    tripadvisor_status := PyVal.str ta.status,
    tripadvisor_confidence := pvOfOptQ ta.confidence,
    tripadvisor_distance_m := pvOfOptQ ta.distance_m,
    tripadvisor_match_notes := PyVal.str ta.match_notes,
    tripadvisor_images := PyVal.strList ta.images,
    opening_hours :=
      if !truthy r.existing_opening_hours && truthy pd.opening_hours then
        pd.opening_hours
      else r.existing_opening_hours,
    cuisine_type :=
      if !truthy r.existing_cuisine_type && truthy pd.cuisine_type then
        pd.cuisine_type
      else r.existing_cuisine_type,
    price_range :=
      if !truthy r.existing_price_range && truthy pd.price_range then
        pd.price_range
      else r.existing_price_range,
    phone :=
      if !truthy r.existing_phone && truthy pd.phone then pd.phone
      else r.existing_phone,
    tertiary_updates :=
      if updates = [] then PyVal.none else PyVal.updateMap updates }

/-- The result appended when the search reports no acceptable match:
existing values pass through with status not_found. -/
def notFoundRec (r : SnapRow) (ta : TAResult) : Rec :=
  { google_place_id := r.google_place_id,
    opening_hours := r.existing_opening_hours,
    cuisine_type := r.existing_cuisine_type,
    price_range := r.existing_price_range,
    phone := r.existing_phone,
    tripadvisor_url := PyVal.none,
    tripadvisor_status := PyVal.str ("not_found"),
    tertiary_updates := PyVal.none,
    tripadvisor_confidence := PyVal.none,
    tripadvisor_distance_m := PyVal.none,
    tripadvisor_match_notes := PyVal.str ta.match_notes,
    tripadvisor_images := PyVal.strList [] }

/-- The result appended by the except handler: existing values pass
through with status error and a truncated diagnostic. -/
def errorRec (r : SnapRow) (msg : String) : Rec :=
  { google_place_id := r.google_place_id,
    opening_hours := r.existing_opening_hours,
    cuisine_type := r.existing_cuisine_type,
    price_range := r.existing_price_range,
    phone := r.existing_phone,
    tripadvisor_url := PyVal.none,
    tripadvisor_status := PyVal.str ("error"),
    tertiary_updates := PyVal.none,
    tripadvisor_confidence := PyVal.none,
    tripadvisor_distance_m := PyVal.none,
    tripadvisor_match_notes := PyVal.str ("Error: " ++ strTake msg 100),
    tripadvisor_images := PyVal.strList [] }

/-- The body of one iteration of the enrichment loop (everything
inside the try of the for loop in enrich_tertiary), for row index i.
An Except.error models an uncaught exception inside the body. -/
def rowBody (env : RowEnv) (i : Nat) (r : SnapRow) : Except String Rec :=
  let coords := parseCoords env.parseFloat r.latitude r.longitude
  let ta := (search_tripadvisor_validated (env.searchEnvOf i)
    (pyStrOrEmpty r.name) (pyStrOrEmpty r.city)
    (match r.area with | PyVal.str s => Option.some s | _ => Option.none)
    coords.1 coords.2).1
  if ta.status = "found" ∨ ta.status = "weak_match" then
    match env.scrapePage i (ta.url.getD ("")) with
    | Except.ok pd => Except.ok (foundRec r ta pd)
    | Except.error e => Except.error e
  else Except.ok (notFoundRec r ta)

/-- The batch loop of enrich_tertiary: one result is appended per
row; any exception from the row body is caught and converted into an
error record for that row alone. -/
def enrichTertiaryLoop (env : RowEnv) (rows : List SnapRow) : List Rec :=
  rows.enum.map (fun p =>
    match rowBody env p.1 p.2 with
    | Except.ok res => res
    | Except.error e => errorRec p.2 e)

/-- The JSON body and HTTP status produced by the /tertiary/enrich
endpoint, restricted to the fields the claims inspect.  processed is
the enriched_data list accumulated by the loop (empty whenever the
endpoint returns before the loop starts). -/
structure TertiaryResponse where
  httpStatus : Nat
  error : Option String := Option.none
  details : Option String := Option.none
  action : Option String := Option.none
  success : Option Bool := Option.none
  count : Option Nat := Option.none
  processed : List Rec := []
  finalDatasetCount : Option Nat := Option.none
  deriving DecidableEq

/-- The /tertiary/enrich endpoint: request validation, snapshot
lookup, the empty-snapshot check, then the batch loop followed by the
merge into the secondary dataset. -/
def enrich_tertiary (store : SnapshotStore) (secondary_dataset : List Rec)
    (env : RowEnv) (reqSnapshotId : Option String) : TertiaryResponse :=
  match reqSnapshotId with
  | Option.none =>
      { httpStatus := 400,
        error := Option.some ("Tertiary snapshot not created yet. Call /tertiary/snapshot first"),
        details := Option.some ("Missing tertiary_snapshot_id in request body"),
        action := Option.some ("CREATE_SNAPSHOT") }
  | Option.some sid =>
      match (store.find? (fun e => decide (e.1 = sid))).map (fun e => e.2) with
      | Option.none =>
          { httpStatus := 404,
            error := Option.some ("Snapshot not found"),
            details := Option.some ("Invalid or expired tertiary_snapshot_id. Call /tertiary/snapshot to create a new snapshot."),
            action := Option.some ("RECREATE_SNAPSHOT") }
      | Option.some entry =>
          if entry.data.length = 0 then
            { httpStatus := 400,
              error := Option.some ("Snapshot exists but is empty"),
              details := Option.some ("The snapshot contains 0 restaurants. No TripAdvisor enrichment needed."),
              success := Option.some true,
              count := Option.some 0 }
          else
            let enriched := enrichTertiaryLoop env entry.data
            let finalDataset := merge_enriched_results secondary_dataset enriched
            { httpStatus := 200,
              success := Option.some true,
              count := Option.some enriched.length,
              processed := enriched,
              finalDatasetCount := Option.some finalDataset.length }

/-! ### The TripAdvisor fallback block of
RestaurantEnricher.enrich_restaurant (secondary_enrichment.py) -/

/-- The fill loop applied to the scraped TripAdvisor page data: a key
is written only when the current enrichment value is in
(None, [], "") and the scraped value is truthy. -/
def fillNullOnly (e : Rec) (pd : PageData) : Rec :=
  let e := if isNullish e.price_range && truthy pd.price_range then
      { e with price_range := pd.price_range } else e
  let e := if isNullish e.cuisine_type && truthy pd.cuisine_type then
      { e with cuisine_type := pd.cuisine_type } else e
  let e := if isNullish e.phone && truthy pd.phone then
      { e with phone := pd.phone } else e
  if isNullish e.opening_hours && truthy pd.opening_hours then
    { e with opening_hours := pd.opening_hours } else e

/-- The TripAdvisor fallback block of enrich_restaurant: look the
restaurant up with the legacy search; on a truthy url, scrape the
page and fill missing fields; otherwise (or when the scrape raises,
since the whole block is wrapped in a try) leave the enrichment
untouched. -/
def tripadvisor_fallback (env : SearchEnv)
    (scrape : String → Except String PageData) (name city : String)
    (enrichment : Rec) : Rec :=
  match search_tripadvisor env name city with
  | Option.some ta_url =>
      if ta_url = "" then enrichment
      else
        match scrape ta_url with
        | Except.ok pd => fillNullOnly enrichment pd
        | Except.error _ => enrichment
  | Option.none => enrichment

/-! ## Theorems -/

/-- The confidence formula exactly as the specification words it:
name weight 0.5, area weight 0.3, distance term clamp(1 - d/1000, 0, 1)
when the distance is known and 0 when unknown, weight 0.2, rounded to
2 decimal places.  Stated only to be compared with the
calculate_confidence_score embedding of the code. -/
def spec_confidence_formula (name_sim : ℚ) (area_match : Bool)
    (distance_m : Option ℚ) : ℚ :=
  roundTo2 (name_sim * (1 / 2) + (if area_match then (1 : ℚ) else 0) * (3 / 10)
    + (match distance_m with
       | Option.some d => max 0 (min 1 (1 - d / 1000)) * (1 / 5)
       | Option.none => 0))

/-- C5: the confidence score equals
name_sim * 0.5 + area * 0.3 + distance_term * 0.2 rounded to 2
decimals, with distance_term = clamp(1 - d/1000, 0, 1) when the
distance is known and 0 otherwise; in particular name_sim = 0.90,
area_match = true, distance_m = 500 scores 0.85. -/
theorem C5_confidence_formula :
    (∀ (name_sim : ℚ) (area_match : Bool) (distance_m : Option ℚ),
      calculate_confidence_score name_sim area_match distance_m
        = spec_confidence_formula name_sim area_match distance_m)
    ∧ calculate_confidence_score (9 / 10) true (Option.some 500) = 17 / 20 := by
  constructor
  · intro name_sim area_match distance_m
    unfold calculate_confidence_score spec_confidence_formula MAX_DISTANCE_METERS
    cases distance_m with
    | none =>
        simp only []
        congr 1
        simp only [Rat.mkRat_eq_div]
        push_cast
        ring
    | some d =>
        simp only []
        congr 1
        simp only [Rat.mkRat_eq_div]
        push_cast
        ring
  · unfold calculate_confidence_score roundTo2 roundHalfEven MAX_DISTANCE_METERS
    simp only [Rat.mkRat_eq_div]
    norm_num

/-- C2: for a base record with a fallback entry of the same
identifier, each of the four critical fields keeps the base value
when it is truthy and takes the fallback value exactly when the base
value is falsy, while the seven tracking fields are copied from the
fallback unconditionally. -/
theorem C2_merge_fill_null_law :
    ∀ (base fbs : List Rec) (i : Nat) (r f : Rec),
      base[i]? = Option.some r →
      fallbackLookup fbs r.google_place_id = Option.some f →
      (merge_enriched_results base fbs)[i]? = Option.some (mergeRecord r f)
      ∧ (truthy r.opening_hours = true →
          (mergeRecord r f).opening_hours = r.opening_hours)
      ∧ (truthy r.opening_hours = false →
          (mergeRecord r f).opening_hours = f.opening_hours)
      ∧ (truthy r.cuisine_type = true →
          (mergeRecord r f).cuisine_type = r.cuisine_type)
      ∧ (truthy r.cuisine_type = false →
          (mergeRecord r f).cuisine_type = f.cuisine_type)
      ∧ (truthy r.price_range = true →
          (mergeRecord r f).price_range = r.price_range)
      ∧ (truthy r.price_range = false →
          (mergeRecord r f).price_range = f.price_range)
      ∧ (truthy r.phone = true → (mergeRecord r f).phone = r.phone)
      ∧ (truthy r.phone = false → (mergeRecord r f).phone = f.phone)
      ∧ (mergeRecord r f).tripadvisor_url = f.tripadvisor_url
      ∧ (mergeRecord r f).tripadvisor_status = f.tripadvisor_status
      ∧ (mergeRecord r f).tripadvisor_confidence = f.tripadvisor_confidence
      ∧ (mergeRecord r f).tripadvisor_distance_m = f.tripadvisor_distance_m
      ∧ (mergeRecord r f).tripadvisor_match_notes = f.tripadvisor_match_notes
      ∧ (mergeRecord r f).tripadvisor_images = f.tripadvisor_images
      ∧ (mergeRecord r f).tertiary_updates = f.tertiary_updates := by
  intro base fbs i r f hbase hlook
  refine ⟨?_, ?_, ?_, ?_, ?_, ?_, ?_, ?_, ?_, ?_, ?_, ?_, ?_, ?_, ?_, ?_⟩
  · unfold merge_enriched_results
    rw [List.getElem?_map, hbase, Option.map_some']
    rw [hlook]
  all_goals simp only [mergeRecord]
  all_goals intro h
  all_goals simp [h]

/-- Base record for the C2 witness. -/
def c2BaseEx : Rec :=
  { google_place_id := PyVal.str ("g1"),
    phone := PyVal.str ("020 7946 0000"),
    opening_hours := PyVal.none,
    cuisine_type := PyVal.str (""),
    price_range := PyVal.str ("cheap") }

/-- Fallback record for the C2 witness. -/
def c2FallbackEx : Rec :=
  { google_place_id := PyVal.str ("g1"),
    phone := PyVal.str ("020 7946 9999"),
    opening_hours := PyVal.strList ["Mon: 9-5"],
    cuisine_type := PyVal.str ("indian"),
    price_range := PyVal.str ("mid"),
    tripadvisor_url := PyVal.str ("https://example.org/r"),
    tripadvisor_status := PyVal.str ("found") }

/-- C2 witness: the merge law evaluated on one concrete base record
and one concrete fallback record with the same identifier. -/
theorem C2_merge_fill_null_law_witness :
    ([c2BaseEx][0]? = Option.some c2BaseEx
      ∧ fallbackLookup [c2FallbackEx] c2BaseEx.google_place_id
          = Option.some c2FallbackEx)
    ∧ ((merge_enriched_results [c2BaseEx] [c2FallbackEx])[0]?
          = Option.some (mergeRecord c2BaseEx c2FallbackEx)
        ∧ (truthy c2BaseEx.opening_hours = true →
            (mergeRecord c2BaseEx c2FallbackEx).opening_hours = c2BaseEx.opening_hours)
        ∧ (truthy c2BaseEx.opening_hours = false →
            (mergeRecord c2BaseEx c2FallbackEx).opening_hours = c2FallbackEx.opening_hours)
        ∧ (truthy c2BaseEx.cuisine_type = true →
            (mergeRecord c2BaseEx c2FallbackEx).cuisine_type = c2BaseEx.cuisine_type)
        ∧ (truthy c2BaseEx.cuisine_type = false →
            (mergeRecord c2BaseEx c2FallbackEx).cuisine_type = c2FallbackEx.cuisine_type)
        ∧ (truthy c2BaseEx.price_range = true →
            (mergeRecord c2BaseEx c2FallbackEx).price_range = c2BaseEx.price_range)
        ∧ (truthy c2BaseEx.price_range = false →
            (mergeRecord c2BaseEx c2FallbackEx).price_range = c2FallbackEx.price_range)
        ∧ (truthy c2BaseEx.phone = true →
            (mergeRecord c2BaseEx c2FallbackEx).phone = c2BaseEx.phone)
        ∧ (truthy c2BaseEx.phone = false →
            (mergeRecord c2BaseEx c2FallbackEx).phone = c2FallbackEx.phone)
        ∧ (mergeRecord c2BaseEx c2FallbackEx).tripadvisor_url
            = c2FallbackEx.tripadvisor_url
        ∧ (mergeRecord c2BaseEx c2FallbackEx).tripadvisor_status
            = c2FallbackEx.tripadvisor_status
        ∧ (mergeRecord c2BaseEx c2FallbackEx).tripadvisor_confidence
            = c2FallbackEx.tripadvisor_confidence
        ∧ (mergeRecord c2BaseEx c2FallbackEx).tripadvisor_distance_m
            = c2FallbackEx.tripadvisor_distance_m
        ∧ (mergeRecord c2BaseEx c2FallbackEx).tripadvisor_match_notes
            = c2FallbackEx.tripadvisor_match_notes
        ∧ (mergeRecord c2BaseEx c2FallbackEx).tripadvisor_images
            = c2FallbackEx.tripadvisor_images
        ∧ (mergeRecord c2BaseEx c2FallbackEx).tertiary_updates
            = c2FallbackEx.tertiary_updates) :=
  ⟨⟨by decide, by decide⟩,
    C2_merge_fill_null_law [c2BaseEx] [c2FallbackEx] 0 c2BaseEx c2FallbackEx
      (by decide) (by decide)⟩

/-- C3: the batch loop of enrich_tertiary produces exactly one result
per input row, and a row whose body raises is converted into an
error-status record at that row position. -/
theorem C3_batch_size_invariant :
    ∀ (env : RowEnv) (rows : List SnapRow),
      (enrichTertiaryLoop env rows).length = rows.length
      ∧ ∀ (i : Nat) (r : SnapRow) (e : String),
          rows[i]? = Option.some r →
          rowBody env i r = Except.error e →
          (enrichTertiaryLoop env rows)[i]? = Option.some (errorRec r e) := by
  intro env rows
  constructor
  · unfold enrichTertiaryLoop
    rw [List.length_map, List.enum_length]
  · intro i r e hi herr
    unfold enrichTertiaryLoop
    rw [List.getElem?_map, List.getElem?_enum, hi]
    simp only [Option.map_some']
    rw [herr]

/-- C6: the validated search returns a result whose status is always
either found or not_found; no other status value (in particular no
weak_match) is reachable, whatever the network produced. -/
theorem C6_status_found_or_not_found :
    ∀ (env : SearchEnv) (name city : String) (area : Option String)
      (latitude longitude : Option ℚ),
      (search_tripadvisor_validated env name city area latitude longitude).1.status
        = "found"
      ∨ (search_tripadvisor_validated env name city area latitude longitude).1.status
        = "not_found" := by
  intro env name city area latitude longitude
  unfold search_tripadvisor_validated
  rcases env.searchPage with e | links
  · right; rfl
  · simp only []
    split
    · right; rfl
    · split
      · right; rfl
      · split
        · right; rfl
        · left; rfl

/-- C1 amended: creating a snapshot twice from the same dataset in
the same row order returns status reused, the same snapshot id, and
leaves the store untouched. -/
theorem C1_snapshot_idempotent_identical_content :
    ∀ (store : SnapshotStore) (fid1 fid2 : String) (D : List Rec),
      (create_snapshot (create_snapshot store fid1 D).2 fid2 D).1.status = "reused"
      ∧ (create_snapshot (create_snapshot store fid1 D).2 fid2 D).1.tertiary_snapshot_id
          = (create_snapshot store fid1 D).1.tertiary_snapshot_id
      ∧ (create_snapshot (create_snapshot store fid1 D).2 fid2 D).2
          = (create_snapshot store fid1 D).2 := by
  intro store fid1 fid2 D
  unfold create_snapshot
  simp only []
  cases hfind : store.find?
      (fun e => decide (e.2.hash = snapshotHash (create_tertiary_snapshot D))) with
  | some e => simp [hfind]
  | none =>
      simp only [hfind]
      rw [List.find?_append, hfind]
      simp [List.find?_cons]

/-- First dataset row of the C1 counterexample: all four critical
fields are missing, so it enters the snapshot. -/
def c1RowA : Rec :=
  { google_place_id := PyVal.str ("a"), name := PyVal.str ("Alpha") }

/-- Second dataset row of the C1 counterexample. -/
def c1RowB : Rec :=
  { google_place_id := PyVal.str ("b"), name := PyVal.str ("Beta") }

/-- C1 counterexample: snapshotting the two-row dataset and then its
reversal does not reuse the first snapshot.  The hash serializes the
row list in order (sort_keys only normalizes the keys inside each
row), so the permuted dataset hashes differently: the second call
returns status created, a fresh id, and a second store entry, where
the claim requires reused, the same id and no new entry. -/
theorem C1_row_order_counterexample :
    (create_snapshot ((create_snapshot [] ("id-1") [c1RowA, c1RowB]).2) ("id-2")
        [c1RowB, c1RowA]).1.status = "created"
    ∧ ((create_snapshot ((create_snapshot [] ("id-1") [c1RowA, c1RowB]).2) ("id-2")
        [c1RowB, c1RowA]).2).length = 2
    ∧ (create_snapshot ((create_snapshot [] ("id-1") [c1RowA, c1RowB]).2) ("id-2")
          [c1RowB, c1RowA]).1.tertiary_snapshot_id
        ≠ (create_snapshot [] ("id-1") [c1RowA, c1RowB]).1.tertiary_snapshot_id := by
  set_option maxRecDepth 10000 in decide

/-- C7 amended: an unknown snapshot id yields the 404 not-found
response carrying the recreate hint and processes no rows; a known
but empty snapshot returns before the loop as well, with a body
carrying success = true and count = 0 that distinguishes it from the
not-found error, but under HTTP status 400 and with an error field,
not as a success response. -/
theorem C7_unknown_and_empty_snapshot :
    ∀ (store : SnapshotStore) (ds : List Rec) (env : RowEnv) (sid : String),
      (store.find? (fun e => decide (e.1 = sid)) = Option.none →
        enrich_tertiary store ds env (Option.some sid)
          = { httpStatus := 404,
              error := Option.some ("Snapshot not found"),
              details := Option.some ("Invalid or expired tertiary_snapshot_id. Call /tertiary/snapshot to create a new snapshot."),
              action := Option.some ("RECREATE_SNAPSHOT") })
      ∧ (∀ p, store.find? (fun e => decide (e.1 = sid)) = Option.some p →
          p.2.data = [] →
          enrich_tertiary store ds env (Option.some sid)
            = { httpStatus := 400,
                error := Option.some ("Snapshot exists but is empty"),
                details := Option.some ("The snapshot contains 0 restaurants. No TripAdvisor enrichment needed."),
                success := Option.some true,
                count := Option.some 0 }) := by
  intro store ds env sid
  constructor
  · intro hnone
    unfold enrich_tertiary
    simp only []
    rw [hnone]
    rfl
  · intro p hsome hdata
    unfold enrich_tertiary
    simp only []
    rw [hsome]
    simp only [Option.map_some']
    rw [hdata]
    rfl

/-- Inert row environment used where the endpoint returns before the
batch loop ever consults it. -/
def c7EnvEx : RowEnv :=
  { searchEnvOf := fun _ =>
      { searchPage := Except.error ("down"), geo := fun _ => { url := Option.none },
        dist := fun _ _ _ _ => 0 },
    scrapePage := fun _ _ => Except.error ("down"),
    parseFloat := fun _ => Option.none }

/-- The stored empty snapshot of the C7 scenario. -/
def c7EntryEx : StoredSnapshot :=
  { data := [], locked := true, hash := "[]" }

/-- Store holding one empty snapshot under the id snap-1. -/
def c7StoreEx : SnapshotStore :=
  [(("snap-1"), c7EntryEx)]

/-- C7 counterexample: running matching against a known snapshot with
zero rows does not produce a success response: the endpoint answers
HTTP 400 with an error field (the body still carries success = true
and count = 0 next to the error). -/
theorem C7_empty_snapshot_counterexample :
    (enrich_tertiary c7StoreEx [] c7EnvEx (Option.some ("snap-1"))).httpStatus = 400
    ∧ (enrich_tertiary c7StoreEx [] c7EnvEx (Option.some ("snap-1"))).error
        = Option.some ("Snapshot exists but is empty")
    ∧ (enrich_tertiary c7StoreEx [] c7EnvEx (Option.some ("snap-1"))).success
        = Option.some true := by
  decide

/-- C7 witness: the amended statement evaluated on a concrete store,
once with an unknown id and once with the empty snapshot. -/
theorem C7_unknown_and_empty_snapshot_witness :
    (c7StoreEx.find? (fun e => decide (e.1 = "nope")) = Option.none
      ∧ enrich_tertiary c7StoreEx [] c7EnvEx (Option.some ("nope"))
          = { httpStatus := 404,
              error := Option.some ("Snapshot not found"),
              details := Option.some ("Invalid or expired tertiary_snapshot_id. Call /tertiary/snapshot to create a new snapshot."),
              action := Option.some ("RECREATE_SNAPSHOT") })
    ∧ (c7StoreEx.find? (fun e => decide (e.1 = "snap-1"))
          = Option.some (("snap-1"), c7EntryEx)
      ∧ c7EntryEx.data = []
      ∧ enrich_tertiary c7StoreEx [] c7EnvEx (Option.some ("snap-1"))
          = { httpStatus := 400,
              error := Option.some ("Snapshot exists but is empty"),
              details := Option.some ("The snapshot contains 0 restaurants. No TripAdvisor enrichment needed."),
              success := Option.some true,
              count := Option.some 0 }) :=
  ⟨⟨by decide,
    (C7_unknown_and_empty_snapshot c7StoreEx [] c7EnvEx ("nope")).1 (by decide)⟩,
   ⟨by decide, by decide,
    (C7_unknown_and_empty_snapshot c7StoreEx [] c7EnvEx ("snap-1")).2
      (("snap-1"), c7EntryEx) (by decide) (by decide)⟩⟩

/-- Search world of the C3 witness: one candidate whose displayed
name equals the query exactly and whose detail page validates, with
an address matching the query area. -/
def c3SearchEnvEx : SearchEnv :=
  { searchPage := Except.ok [{ href := "/Restaurant_Review-x", text := "Zedi" }],
    geo := fun _ =>
      { url := Option.some ("https://www.tripadvisor.co.uk/Restaurant_Review-x"),
        address := Option.some ("1 Soho Square, Soho") },
    dist := fun _ _ _ _ => 0 }

/-- The candidate extracted from the search page of the C3 witness. -/
def c3CandEx : Cand :=
  { url := "https://www.tripadvisor.co.uk/Restaurant_Review-x", name := "Zedi" }

/-- The same candidate after page validation resolved its data. -/
def c3CandResolved : Cand :=
  { url := "https://www.tripadvisor.co.uk/Restaurant_Review-x", name := "Zedi",
    address := Option.some ("1 Soho Square, Soho") }

/-- Its scored form: exact name match, area match, no distance. -/
def c3ScoredEx : Scored :=
  { cand := c3CandResolved, name_similarity := 1, distance_m := Option.none,
    area_match := true, confidence := mkRat 4 5 }

/-- The witness query name matches itself with similarity 1. -/
theorem simZediSelf : calculate_name_similarity ("Zedi") ("Zedi") = 1 := by
  have hn : normalize_name ("Zedi") = "zedi" := by decide
  unfold calculate_name_similarity
  rw [hn, if_neg (by decide : ¬(("zedi" : String) = "" ∨ ("zedi" : String) = ""))]
  unfold seqRatio
  rw [(by decide : seqMatches ("zedi").data ("zedi").data = 4)]
  rw [if_neg (by decide : ¬((String.data ("zedi")).length + (String.data ("zedi")).length = 0))]
  rw [(by decide : (String.data ("zedi")).length = 4)]
  norm_num

/-- Confidence of an exact name match with area match and unknown
distance: round(0.5 + 0.3, 2) = 0.8. -/
theorem confAreaNoDistEval : calculate_confidence_score 1 true Option.none = mkRat 4 5 := by
  unfold calculate_confidence_score roundTo2 roundHalfEven
  simp only [Rat.mkRat_eq_div]
  norm_num

/-- Candidate collection in the C3 witness world. -/
theorem collectZediEval :
    collectCandidates [{ href := "/Restaurant_Review-x", text := "Zedi" }] []
      = [c3CandEx] := by
  decide

/-- Candidate scoring in the C3 witness world. -/
theorem scoreZediEval :
    scoreCandidates c3SearchEnvEx ("Zedi") Option.none Option.none
      (Option.some ("Soho")) [c3CandEx]
    = ([c3ScoredEx], ["https://www.tripadvisor.co.uk/Restaurant_Review-x"]) := by
  simp only [scoreCandidates, simZediSelf, c3SearchEnvEx, c3CandEx]
  rw [if_neg (by unfold MIN_NAME_SIMILARITY; rw [Rat.mkRat_eq_div]; norm_num :
    ¬((1:ℚ) < MIN_NAME_SIMILARITY))]
  simp only [isTruthyQ, isTruthyS, Bool.false_and, Bool.and_false]
  rw [if_neg (by decide : ¬(false = true))]
  rw [(by decide : (if (decide (("Soho":String) ≠ "") && decide (("1 Soho Square, Soho":String) ≠ "")) = true then check_area_match ((Option.some ("Soho")).getD "") ((Option.some ("1 Soho Square, Soho")).getD "") else false) = true)]
  rw [confAreaNoDistEval]
  rfl

/-- The search of the C3 witness world accepts the candidate. -/
theorem searchZediEval :
    (search_tripadvisor_validated c3SearchEnvEx ("Zedi") ("London")
      (Option.some ("Soho")) Option.none Option.none).1.status = "found"
    ∧ (search_tripadvisor_validated c3SearchEnvEx ("Zedi") ("London")
      (Option.some ("Soho")) Option.none Option.none).1.url
        = Option.some ("https://www.tripadvisor.co.uk/Restaurant_Review-x") := by
  have main : (search_tripadvisor_validated c3SearchEnvEx ("Zedi") ("London")
      (Option.some ("Soho")) Option.none Option.none).1
      = { url := Option.some ("https://www.tripadvisor.co.uk/Restaurant_Review-x"),
          status := "found", confidence := Option.some (mkRat 4 5),
          distance_m := Option.none,
          match_notes := String.intercalate (" | ")
            (["name_sim=" ++ pyFloatRepr 1] ++ ["area_match=true"]),
          images := [] } := by
    unfold search_tripadvisor_validated
    rw [show c3SearchEnvEx.searchPage
      = Except.ok [{ href := "/Restaurant_Review-x", text := "Zedi" }] from rfl]
    simp only []
    rw [collectZediEval]
    rw [if_neg (by decide : ¬([c3CandEx] = []))]
    rw [scoreZediEval]
    simp only [pyMaxBy]
    rw [if_neg (by decide : ¬(c3ScoredEx.confidence < MIN_CONFIDENCE_SCORE))]
    rfl
  exact ⟨by rw [main], by rw [main]⟩

/-- Row environment of the C3 witness: the accepted match leads into
the page scrape, which raises. -/
def c3EnvEx : RowEnv :=
  { searchEnvOf := fun _ => c3SearchEnvEx,
    scrapePage := fun _ _ => Except.error ("boom"),
    parseFloat := fun _ => Option.none }

/-- Snapshot row of the C3 witness. -/
def c3RowEx : SnapRow :=
  { google_place_id := PyVal.str ("g9"), name := PyVal.str ("Zedi"),
    city := PyVal.str ("London"), area := PyVal.str ("Soho") }

/-- The row body of the C3 witness raises inside the scrape. -/
theorem c3RowBodyEval : rowBody c3EnvEx 0 c3RowEx = Except.error ("boom") := by
  unfold rowBody
  simp only []
  rw [show c3EnvEx.searchEnvOf 0 = c3SearchEnvEx from rfl]
  rw [show pyStrOrEmpty c3RowEx.name = "Zedi" from rfl]
  rw [show pyStrOrEmpty c3RowEx.city = "London" from rfl]
  rw [show parseCoords c3EnvEx.parseFloat c3RowEx.latitude c3RowEx.longitude
    = (Option.none, Option.none) from rfl]
  rw [show c3RowEx.area = PyVal.str ("Soho") from rfl]
  simp only []
  rw [searchZediEval.1]
  rw [if_pos (Or.inl rfl)]
  rfl

/-- C3 witness: a one-row snapshot whose row body raises still yields
exactly one result, an error record for that row. -/
theorem C3_batch_size_invariant_witness :
    ([c3RowEx][0]? = Option.some c3RowEx
      ∧ rowBody c3EnvEx 0 c3RowEx = Except.error ("boom"))
    ∧ ((enrichTertiaryLoop c3EnvEx [c3RowEx]).length = 1
      ∧ (enrichTertiaryLoop c3EnvEx [c3RowEx])[0]?
          = Option.some (errorRec c3RowEx ("boom"))) :=
  ⟨⟨by decide, c3RowBodyEval⟩,
   ⟨(C3_batch_size_invariant c3EnvEx [c3RowEx]).1,
    (C3_batch_size_invariant c3EnvEx [c3RowEx]).2 0 c3RowEx ("boom")
      (by decide) c3RowBodyEval⟩⟩

/-- Per-candidate log lemma: the detail-page fetches issued by the
scoring loop are exactly the original urls of the candidates whose
name similarity passes the 0.80 hard check, in order; candidates
rejected on name never reach the geolocation fetch. -/

theorem scoreCandidates_log :
    ∀ (env : SearchEnv) (qname : String) (latitude longitude : Option ℚ)
      (area : Option String) (cs : List Cand),
      (scoreCandidates env qname latitude longitude area cs).2
      = (cs.filter (fun c =>
          !decide (calculate_name_similarity qname c.name < MIN_NAME_SIMILARITY))).map
          (fun c => c.url) := by
  intro env qname latitude longitude area cs
  induction cs with
  | nil => rfl
  | cons c cs ih =>
      simp only [scoreCandidates, List.filter_cons]
      by_cases h : calculate_name_similarity qname c.name < MIN_NAME_SIMILARITY
      · rw [if_pos h]
        simp [h, ih]
      · rw [if_neg h]
        split
        · simp [h, ih]
        · split
          · split
            · simp [h, ih]
            · simp [h, ih]
          · simp [h, ih]

/-- The candidate collection loop never grows past the cap. -/
theorem collectCandidates_le :
    ∀ (links : List Link) (acc : List Cand), acc.length ≤ MAX_CANDIDATES →
      (collectCandidates links acc).length ≤ MAX_CANDIDATES := by
  intro links
  induction links with
  | nil => intro acc h; exact h
  | cons l ls ih =>
      intro acc h
      simp only [collectCandidates]
      by_cases hc : MAX_CANDIDATES ≤ acc.length
      · rw [if_pos hc]; exact h
      · rw [if_neg hc]
        cases extract_candidate_details l with
        | some c =>
            simp only []
            apply ih
            simp only [List.length_append, List.length_cons, List.length_nil]
            omega
        | none => exact ih acc h

/-- C9: a candidate whose name similarity is below 0.80 never
triggers a detail-page fetch (the fetch log is exactly the
similarity-passing candidates, in order), and the number of fetches
per query is bounded by the candidate cap of 5. -/
theorem C9_similarity_before_fetch :
    ∀ (env : SearchEnv) (name city : String) (area : Option String)
      (latitude longitude : Option ℚ),
      (search_tripadvisor_validated env name city area latitude longitude).2.length
        ≤ MAX_CANDIDATES
      ∧ (∀ links, env.searchPage = Except.ok links →
          (search_tripadvisor_validated env name city area latitude longitude).2
          = ((collectCandidates links []).filter (fun c =>
              !decide (calculate_name_similarity name c.name < MIN_NAME_SIMILARITY))).map
              (fun c => c.url)) := by
  intro env name city area latitude longitude
  have hlog : ∀ links, env.searchPage = Except.ok links →
      (search_tripadvisor_validated env name city area latitude longitude).2
      = ((collectCandidates links []).filter (fun c =>
          !decide (calculate_name_similarity name c.name < MIN_NAME_SIMILARITY))).map
          (fun c => c.url) := by
    intro links hl
    unfold search_tripadvisor_validated
    rw [hl]
    simp only []
    by_cases hc : collectCandidates links [] = []
    · rw [if_pos hc, hc]
      rfl
    · rw [if_neg hc]
      split
      · exact scoreCandidates_log env name latitude longitude area _
      · split
        · exact scoreCandidates_log env name latitude longitude area _
        · exact scoreCandidates_log env name latitude longitude area _
  refine ⟨?_, hlog⟩
  cases hsp : env.searchPage with
  | error e =>
      unfold search_tripadvisor_validated
      rw [hsp]
      simp [MAX_CANDIDATES]
  | ok links =>
      rw [hlog links hsp, List.length_map]
      calc (List.filter _ (collectCandidates links [])).length
          ≤ (collectCandidates links []).length := List.length_filter_le _ _
        _ ≤ MAX_CANDIDATES := collectCandidates_le links [] (by simp [MAX_CANDIDATES])

/-- C9 witness: the fetch-log characterization evaluated on the
concrete one-candidate search world. -/
theorem C9_similarity_before_fetch_witness :
    c3SearchEnvEx.searchPage
        = Except.ok [{ href := "/Restaurant_Review-x", text := "Zedi" }]
    ∧ (search_tripadvisor_validated c3SearchEnvEx ("Zedi") ("London")
        (Option.some ("Soho")) Option.none Option.none).2.length ≤ MAX_CANDIDATES
    ∧ (search_tripadvisor_validated c3SearchEnvEx ("Zedi") ("London")
        (Option.some ("Soho")) Option.none Option.none).2
      = ((collectCandidates [{ href := "/Restaurant_Review-x", text := "Zedi" }] []).filter
          (fun c => !decide (calculate_name_similarity ("Zedi") c.name < MIN_NAME_SIMILARITY))).map
          (fun c => c.url) :=
  ⟨rfl,
   (C9_similarity_before_fetch c3SearchEnvEx ("Zedi") ("London")
      (Option.some ("Soho")) Option.none Option.none).1,
   (C9_similarity_before_fetch c3SearchEnvEx ("Zedi") ("London")
      (Option.some ("Soho")) Option.none Option.none).2
     [{ href := "/Restaurant_Review-x", text := "Zedi" }] rfl⟩


/-- Bounds invariant for the best block. -/
def GoodB (alo ahi blo bhi : Nat) (st : Nat × Nat × Nat) : Prop :=
  st = (alo, blo, 0)
  ∨ (alo ≤ st.1 ∧ st.1 + st.2.2 ≤ ahi ∧ blo ≤ st.2.1 ∧ st.2.1 + st.2.2 ≤ bhi ∧ st.2.2 ≠ 0)

/-- Bounds invariant for the j2len function before processing row i. -/
def GoodF (alo blo bhi i : Nat) (f : Nat → Nat) : Prop :=
  ∀ j, f j ≠ 0 → blo ≤ j ∧ j < bhi ∧ f j ≤ j + 1 - blo ∧ f j ≤ i - alo

/-- Reading the previous j2len entry respects both bounds. -/
theorem prevOf_bound {alo blo bhi i : Nat} {f : Nat → Nat} (hf : GoodF alo blo bhi i f)
    (j : Nat) (hj : blo ≤ j) :
    prevOf f j + 1 ≤ j + 1 - blo ∧ (alo ≤ i → prevOf f j + 1 ≤ i + 1 - alo) := by
  unfold prevOf
  by_cases h0 : j = 0
  · subst h0
    simp only [↓reduceIte]
    omega
  · rw [if_neg h0]
    by_cases hz : f (j - 1) = 0
    · rw [hz]; omega
    · have := hf (j - 1) hz
      omega

/-- The row scan preserves the best-block bounds. -/
theorem flmRowBest_good {alo ahi blo bhi i : Nat} {f : Nat → Nat} {js : List Nat}
    {st : Nat × Nat × Nat}
    (hi : alo ≤ i) (hiu : i < ahi)
    (hjs : ∀ j ∈ js, blo ≤ j ∧ j < bhi)
    (hf : GoodF alo blo bhi i f)
    (hst : GoodB alo ahi blo bhi st) :
    GoodB alo ahi blo bhi (flmRowBest i f js st) := by
  induction js generalizing st with
  | nil => exact hst
  | cons j js ih =>
      simp only [flmRowBest, List.foldl_cons] at *
      apply ih (fun j hj => hjs j (List.mem_cons_of_mem _ hj))
      have hj := hjs j (List.mem_cons_self _ _)
      have hb := prevOf_bound hf j hj.1
      split
      · right
        refine ⟨?_, ?_, ?_, ?_, ?_⟩ <;> simp only [] <;> omega
      · exact hst

/-- The row loop preserves the best-block bounds. -/
theorem flmLoop_good {a : List Char} {b2j : Char → List Nat} {alo ahi blo bhi : Nat} :
    ∀ (is : List Nat) (best : Nat × Nat × Nat) (f : Nat → Nat),
      is.Pairwise (· < ·) → (∀ i ∈ is, alo ≤ i ∧ i < ahi) →
      GoodB alo ahi blo bhi best →
      (∀ i ∈ is, GoodF alo blo bhi i f) →
      GoodB alo ahi blo bhi (flmLoop a b2j blo bhi is (best, f)).1 := by
  intro is
  induction is with
  | nil => intro best f _ _ hb _; exact hb
  | cons i is ih =>
      intro best f hpw hmem hb hf
      simp only [flmLoop]
      have hi := hmem i (List.mem_cons_self _ _)
      apply ih
      · exact hpw.of_cons
      · intro i2 h2; exact hmem i2 (List.mem_cons_of_mem _ h2)
      · apply flmRowBest_good hi.1 hi.2 ?_ (hf i (List.mem_cons_self _ _)) hb
        intro j hj
        simp only [List.mem_filter, Bool.and_eq_true, decide_eq_true_eq] at hj
        exact hj.2
      · intro i2 h2 j hj1
        by_cases hjin : ((b2j (charAt a i)).filter
            (fun j => decide (blo ≤ j) && decide (j < bhi))).contains j
        · simp only [if_pos hjin] at hj1 ⊢
          have hjmem : j ∈ (b2j (charAt a i)).filter
              (fun j => decide (blo ≤ j) && decide (j < bhi)) :=
            List.mem_of_elem_eq_true hjin
          simp only [List.mem_filter, Bool.and_eq_true, decide_eq_true_eq] at hjmem
          have hb2 := prevOf_bound (hf i (List.mem_cons_self _ _)) j hjmem.2.1
          have hlt : i < i2 := (List.pairwise_cons.mp hpw).1 i2 h2
          refine ⟨hjmem.2.1, hjmem.2.2, hb2.1, ?_⟩
          have := hb2.2 hi.1
          omega
        · simp only [if_neg hjin] at hj1
          exact absurd rfl hj1

/-- The downward extension loop preserves the bounds. -/
theorem extendLo_good {a b : List Char} {alo ahi blo bhi : Nat} :
    ∀ (fuel : Nat) (st : Nat × Nat × Nat), GoodB alo ahi blo bhi st →
      GoodB alo ahi blo bhi (extendLo a b alo blo fuel st) := by
  intro fuel
  induction fuel with
  | zero => intro st h; exact h
  | succ fuel ih =>
      intro st h
      obtain ⟨bi, bj, bs⟩ := st
      simp only [extendLo]
      split
      · rename_i hguard
        apply ih
        rcases h with h | h
        · obtain ⟨h1, h2, h3⟩ := Prod.mk.injEq .. ▸ h
          exfalso
          cases h
          exact Nat.lt_irrefl _ hguard.1
        · right
          simp only [] at h ⊢
          omega
      · exact h

/-- The upward extension loop preserves the bounds. -/
theorem extendHi_good {a b : List Char} {alo ahi blo bhi : Nat} :
    ∀ (fuel : Nat) (st : Nat × Nat × Nat), GoodB alo ahi blo bhi st →
      GoodB alo ahi blo bhi (extendHi a b ahi bhi fuel st) := by
  intro fuel
  induction fuel with
  | zero => intro st h; exact h
  | succ fuel ih =>
      intro st h
      obtain ⟨bi, bj, bs⟩ := st
      simp only [extendHi]
      split
      · rename_i hguard
        apply ih
        rcases h with h | h
        · right
          injection h with h1 h2
          injection h2 with h2 h3
          subst h1; subst h2; subst h3
          simp only [] at hguard ⊢
          omega
        · right
          simp only [] at h ⊢
          omega
      · exact h

/-- find_longest_match returns a block inside the requested range
(or the zero block). -/
theorem flm_good (a b : List Char) (b2j : Char → List Nat) (alo ahi blo bhi : Nat) :
    GoodB alo ahi blo bhi (find_longest_match a b b2j alo ahi blo bhi) := by
  unfold find_longest_match
  apply extendHi_good
  apply extendLo_good
  apply flmLoop_good
  · exact List.pairwise_lt_range' alo (ahi - alo) 1 (by omega)
  · intro i hi
    rw [List.mem_range'_1] at hi
    omega
  · left; rfl
  · intro i _ j hj
    exact absurd rfl hj

/-- The total matched size never exceeds either range length. -/
theorem matchingTotal_le (a b : List Char) (b2j : Char → List Nat) :
    ∀ (fuel alo ahi blo bhi : Nat),
      matchingTotal a b b2j fuel alo ahi blo bhi ≤ ahi - alo
      ∧ matchingTotal a b b2j fuel alo ahi blo bhi ≤ bhi - blo := by
  intro fuel
  induction fuel with
  | zero => intro alo ahi blo bhi; simp [matchingTotal]
  | succ fuel ih =>
      intro alo ahi blo bhi
      simp only [matchingTotal]
      split
      · simp
      · rename_i hk
        have hg := flm_good a b b2j alo ahi blo bhi
        rcases hg with hg | hg
        · rw [hg] at hk
          exact absurd rfl hk
        · obtain ⟨h1, h2, h3, h4, h5⟩ := hg
          have hL := ih alo (find_longest_match a b b2j alo ahi blo bhi).1 blo
            (find_longest_match a b b2j alo ahi blo bhi).2.1
          have hR := ih ((find_longest_match a b b2j alo ahi blo bhi).1
              + (find_longest_match a b b2j alo ahi blo bhi).2.2) ahi
            ((find_longest_match a b b2j alo ahi blo bhi).2.1
              + (find_longest_match a b b2j alo ahi blo bhi).2.2) bhi
          constructor
          · split <;> split <;> omega
          · split <;> split <;> omega

/-- The total matched size is at most either string length. -/
theorem seqMatches_le (a b : List Char) :
    seqMatches a b ≤ a.length ∧ seqMatches a b ≤ b.length := by
  have h := matchingTotal_le a b (b2jFun b) (a.length + b.length + 1) 0 a.length 0 b.length
  unfold seqMatches
  omega

/-- SequenceMatcher.ratio never exceeds 1. -/
theorem seqRatio_le_one (a b : List Char) : seqRatio a b ≤ 1 := by
  unfold seqRatio
  split
  · exact le_refl 1
  · rename_i h
    have hpos : (0 : ℚ) < (a.length : ℚ) + (b.length : ℚ) := by
      have : 0 < a.length + b.length := Nat.pos_of_ne_zero h
      exact_mod_cast this
    rw [div_le_one hpos]
    have hh : 2 * seqMatches a b ≤ a.length + b.length := by
      have := seqMatches_le a b
      omega
    exact_mod_cast hh

/-- SequenceMatcher.ratio is nonnegative. -/
theorem seqRatio_nonneg (a b : List Char) : 0 ≤ seqRatio a b := by
  unfold seqRatio
  split
  · norm_num
  · positivity

/-- Name similarity never exceeds 1. -/
theorem calculate_name_similarity_le_one (x y : String) :
    calculate_name_similarity x y ≤ 1 := by
  unfold calculate_name_similarity
  simp only []
  split
  · norm_num
  · exact seqRatio_le_one _ _

/-- Name similarity is nonnegative. -/
theorem calculate_name_similarity_nonneg (x y : String) :
    0 ≤ calculate_name_similarity x y := by
  unfold calculate_name_similarity
  simp only []
  split
  · norm_num
  · exact seqRatio_nonneg _ _


/-- Round-half-even never exceeds the floor plus one. -/
theorem roundHalfEven_le_floor_add_one (x : ℚ) : roundHalfEven x ≤ ⌊x⌋ + 1 := by
  unfold roundHalfEven
  simp only []
  split
  · omega
  · split
    · omega
    · split <;> omega

/-- Round-half-even of a value at most c is at most c + 1. -/
theorem roundHalfEven_le_of_le (x : ℚ) (c : ℤ) (h : x ≤ (c : ℚ)) :
    roundHalfEven x ≤ c + 1 := by
  have h1 := roundHalfEven_le_floor_add_one x
  have h2 : ⌊x⌋ ≤ c := by
    calc ⌊x⌋ ≤ ⌊(c:ℚ)⌋ := Int.floor_le_floor h
      _ = c := Int.floor_intCast c
  omega

/-- Rounding a value at most 0.5 to two decimals yields at most 0.51. -/
theorem roundTo2_le_of_le_half (x : ℚ) (h : x ≤ 1 / 2) : roundTo2 x ≤ mkRat 51 100 := by
  unfold roundTo2
  have hx : x * 100 ≤ ((50 : ℤ) : ℚ) := by push_cast; linarith
  have h2 := roundHalfEven_le_of_le _ _ hx
  have h3 : ((roundHalfEven (x * 100) : ℤ) : ℚ) ≤ 51 := by exact_mod_cast h2
  rw [Rat.mkRat_eq_div]
  push_cast
  exact (div_le_div_iff_of_pos_right (by norm_num : (0:ℚ) < 100)).mpr h3

/-- With no area match and no distance, the confidence score of a
similarity at most 1 stays at most 0.51. -/
theorem conf_bound (sim : ℚ) (h1 : sim ≤ 1) :
    calculate_confidence_score sim false Option.none ≤ mkRat 51 100 := by
  unfold calculate_confidence_score
  simp only [Bool.false_eq_true, if_false]
  apply roundTo2_le_of_le_half
  rw [Rat.mkRat_eq_div, Rat.mkRat_eq_div]
  push_cast
  linarith

/-- In the legacy call (no area, no coordinates) every scored
candidate has confidence at most 0.51. -/
theorem scoreCandidates_none_conf :
    ∀ (env : SearchEnv) (qname : String) (cs : List Cand) (sc : Scored),
      sc ∈ (scoreCandidates env qname Option.none Option.none Option.none cs).1 →
      sc.confidence ≤ mkRat 51 100 := by
  intro env qname cs
  induction cs with
  | nil => intro sc h; exact absurd h (List.not_mem_nil _)
  | cons c cs ih =>
      intro sc h
      simp only [scoreCandidates] at h
      by_cases hs : calculate_name_similarity qname c.name < MIN_NAME_SIMILARITY
      · rw [if_pos hs] at h
        exact ih sc h
      · rw [if_neg hs] at h
        rcases hg : (env.geo c.url).url with _ | fu
        · rw [hg] at h
          simp only [] at h
          exact ih sc h
        · rw [hg] at h
          simp only [isTruthyQ, Bool.false_and, Bool.and_false] at h
          rw [if_neg (by simp : ¬((false : Bool) = true))] at h
          simp only [isTruthyS, Bool.false_and, Bool.and_false] at h
          rw [if_neg (by simp : ¬((false : Bool) = true))] at h
          rcases List.mem_cons.mp h with h1 | h1
          · subst h1
            simp only []
            exact conf_bound _ (calculate_name_similarity_le_one qname c.name)
          · exact ih sc h1

/-- Python max never exceeds a bound satisfied by all inputs. -/
theorem pyMaxBy_le (key : Scored → ℚ) (c : ℚ) :
    ∀ (xs : List Scored) (st : Scored), key st ≤ c → (∀ x ∈ xs, key x ≤ c) →
      key (pyMaxBy key st xs) ≤ c := by
  intro xs
  induction xs with
  | nil => intro st h _; exact h
  | cons x xs ih =>
      intro st h hall
      simp only [pyMaxBy]
      apply ih
      · split
        · exact hall x (List.mem_cons_self _ _)
        · exact h
      · intro y hy; exact hall y (List.mem_cons_of_mem _ hy)

/-- C10: the legacy search_tripadvisor always returns None: with no
area and no coordinates the best attainable confidence is
round(name_sim * 0.5, 2) which is at most 0.51, strictly below the
0.75 acceptance threshold, so the status can never be found; hence
the TripAdvisor fallback block of enrich_restaurant never changes the
enrichment record. -/
theorem C10_legacy_search_returns_none :
    ∀ (env : SearchEnv) (name city : String),
      search_tripadvisor env name city = Option.none
      ∧ ∀ (scrape : String → Except String PageData) (enrichment : Rec),
          tripadvisor_fallback env scrape name city enrichment = enrichment := by
  intro env name city
  have hurl : search_tripadvisor env name city = Option.none := by
    unfold search_tripadvisor search_tripadvisor_validated
    rcases env.searchPage with e | links
    · rfl
    · simp only []
      split
      · rfl
      · split
        · rfl
        · rename_i scored s ss hscored
          rw [if_pos ?_]
          · rfl
          · have hmem : ∀ x ∈ s :: ss, x.confidence ≤ mkRat 51 100 := by
              intro x hx
              apply scoreCandidates_none_conf env name (collectCandidates links []) x
              rw [hscored]
              exact hx
            have hb := pyMaxBy_le (fun x => x.confidence) (mkRat 51 100) ss s
              (hmem s (List.mem_cons_self _ _))
              (fun x hx => hmem x (List.mem_cons_of_mem _ hx))
            have hlt : (mkRat 51 100 : ℚ) < MIN_CONFIDENCE_SCORE := by
              unfold MIN_CONFIDENCE_SCORE
              rw [Rat.mkRat_eq_div, Rat.mkRat_eq_div]
              norm_num
            exact lt_of_le_of_lt hb hlt
  refine ⟨hurl, ?_⟩
  intro scrape enrichment
  unfold tripadvisor_fallback
  rw [hurl]


/-- The occurrence list consulted at row i of the self comparison
(the js list of the row loop for a = b = s, blo = 0, bhi = len). -/
def selfJs (s : List Char) (i : Nat) : List Nat :=
  (b2jAll s (charAt s i)).filter (fun j => decide (0 ≤ j) && decide (j < s.length))

/-- The j2len function after m rows of the self comparison. -/
def dgFun (s : List Char) : Nat → Nat → Nat
  | 0 => fun _ => 0
  | m + 1 => fun j => if (selfJs s m).contains j then prevOf (dgFun s m) j + 1 else 0

/-- Below the autojunk threshold the popularity cut is inert. -/
theorem b2jFun_eq_b2jAll {s : List Char} (hn : s.length < 200) (c : Char) :
    b2jFun s c = b2jAll s c := by
  unfold b2jFun
  rw [if_neg]
  intro h
  omega

/-- Membership in the b2j occurrence table. -/
theorem mem_b2jAll {s : List Char} {c : Char} {j : Nat} :
    j ∈ b2jAll s c ↔ j < s.length ∧ charAt s j = c := by
  unfold b2jAll
  rw [List.mem_filter, List.mem_range]
  simp

/-- Membership in the self-comparison occurrence list. -/
theorem mem_selfJs {s : List Char} {i j : Nat} :
    j ∈ selfJs s i ↔ j < s.length ∧ charAt s j = charAt s i := by
  unfold selfJs
  rw [List.mem_filter, mem_b2jAll]
  constructor
  · intro h; exact h.1
  · intro h; exact ⟨h, by simp [h.1]⟩

/-- Run lengths are bounded by the number of processed rows. -/
theorem dgFun_le_row (s : List Char) : ∀ m j, dgFun s m j ≤ m := by
  intro m
  induction m with
  | zero => intro j; simp [dgFun]
  | succ m ih =>
      intro j
      simp only [dgFun]
      split
      · unfold prevOf
        split
        · omega
        · have := ih (j - 1); omega
      · omega

/-- Run lengths are bounded by the column index plus one. -/
theorem dgFun_le_col (s : List Char) : ∀ m j, dgFun s m j ≤ j + 1 := by
  intro m
  induction m with
  | zero => intro j; simp [dgFun]
  | succ m ih =>
      intro j
      simp only [dgFun]
      split
      · unfold prevOf
        split
        · omega
        · have := ih (j - 1)
          rename_i hj0
          omega
      · omega

/-- The diagonal run below row m has the full length m. -/
theorem dgFun_diag (s : List Char) : ∀ m, m ≤ s.length → prevOf (dgFun s m) m = m := by
  intro m
  induction m with
  | zero => intro _; simp [prevOf]
  | succ m ih =>
      intro hm
      show (if m + 1 = 0 then 0 else dgFun s (m + 1) (m + 1 - 1)) = m + 1
      rw [if_neg (Nat.succ_ne_zero m)]
      simp only [Nat.add_sub_cancel, dgFun]
      rw [if_pos]
      · rw [ih (by omega)]
      · apply List.elem_eq_true_of_mem
        rw [mem_selfJs]
        exact ⟨by omega, rfl⟩

/-- The row scan leaves the best block alone when no run beats it. -/
theorem flmRowBest_no_update (i : Nat) (f : Nat → Nat) :
    ∀ (js : List Nat) (st : Nat × Nat × Nat),
      (∀ j ∈ js, prevOf f j + 1 ≤ st.2.2) → flmRowBest i f js st = st := by
  intro js
  induction js with
  | nil => intro st _; rfl
  | cons j js ih =>
      intro st h
      simp only [flmRowBest, List.foldl_cons]
      rw [if_neg (by have := h j (List.mem_cons_self _ _); omega)]
      exact ih st (fun j2 h2 => h j2 (List.mem_cons_of_mem _ h2))

/-- The range filter of the row loop is redundant over the b2j table. -/
theorem selfJs_eq_b2jAll (s : List Char) (i : Nat) :
    selfJs s i = b2jAll s (charAt s i) := by
  unfold selfJs
  apply List.filter_eq_self.mpr
  intro j hj
  rw [mem_b2jAll] at hj
  simp [hj.1]

/-- Split the occurrence list of row m around the diagonal position. -/
theorem selfJs_decomp (s : List Char) (m : Nat) (hm : m < s.length) :
    selfJs s m
      = ((List.range' 0 m).filter (fun j => decide (charAt s j = charAt s m)))
        ++ m :: ((List.range' (m + 1) (s.length - m - 1)).filter
            (fun j => decide (charAt s j = charAt s m))) := by
  rw [selfJs_eq_b2jAll]
  unfold b2jAll
  rw [List.range_eq_range']
  have hsplit : List.range' 0 s.length
      = List.range' 0 m ++ List.range' m (s.length - m) := by
    have := List.range'_append 0 m (s.length - m) 1
    simp only [Nat.mul_one, Nat.zero_add, Nat.one_mul] at this
    rw [this]
    congr 1
    omega
  rw [hsplit, List.filter_append]
  congr 1
  have hrest : List.range' m (s.length - m) = m :: List.range' (m + 1) (s.length - m - 1) := by
    have h1 : s.length - m = (s.length - m - 1) + 1 := by omega
    rw [h1, List.range'_succ]
    simp
  rw [hrest, List.filter_cons]
  simp

/-- Row m of the self comparison moves the best block from (0,0,m) to
(0,0,m+1): positions left of the diagonal are too short to win,
the diagonal wins, and later positions cannot beat it. -/
theorem flmRowBest_self (s : List Char) (m : Nat) (hm : m < s.length) :
    flmRowBest m (dgFun s m) (selfJs s m) (0, 0, m) = (0, 0, m + 1) := by
  rw [selfJs_decomp s m hm]
  unfold flmRowBest
  rw [List.foldl_append, List.foldl_cons]
  have hA : ((List.range' 0 m).filter
      (fun j => decide (charAt s j = charAt s m))).foldl
      (fun bst j =>
        let k := prevOf (dgFun s m) j + 1
        if bst.2.2 < k then (m + 1 - k, j + 1 - k, k) else bst) (0, 0, m)
      = (0, 0, m) := by
    apply flmRowBest_no_update
    intro j hj
    rw [List.mem_filter, List.mem_range'_1] at hj
    have h2 : dgFun s m (j - 1) ≤ j - 1 + 1 := dgFun_le_col s m (j - 1)
    unfold prevOf
    split <;> simp only [] <;> omega
  rw [hA]
  have hdiag := dgFun_diag s m (by omega)
  simp only []
  have hcond : ((0, 0, m) : Nat × Nat × Nat).2.2 < prevOf (dgFun s m) m + 1 := by
    simp [hdiag]
  rw [if_pos hcond, hdiag]
  have hz : m + 1 - (m + 1) = 0 := by omega
  rw [hz]
  apply flmRowBest_no_update
  intro j hj
  rw [List.mem_filter, List.mem_range'_1] at hj
  have h1 := dgFun_le_row s m (j - 1)
  unfold prevOf
  split <;> simp only [] <;> omega

/-- The row loop splits over list append. -/
theorem flmLoop_append (a : List Char) (b2j : Char → List Nat) (blo bhi : Nat) :
    ∀ (l1 l2 : List Nat) (st : (Nat × Nat × Nat) × (Nat → Nat)),
      flmLoop a b2j blo bhi (l1 ++ l2) st
      = flmLoop a b2j blo bhi l2 (flmLoop a b2j blo bhi l1 st) := by
  intro l1
  induction l1 with
  | nil => intro l2 st; rfl
  | cons i l1 ih =>
      intro l2 st
      obtain ⟨best, f⟩ := st
      simp only [List.cons_append, flmLoop]
      exact ih l2 _

/-- After m rows of the self comparison the best block is (0,0,m)
and j2len is the diagonal run table. -/
theorem flmLoop_self (s : List Char) (hn : s.length < 200) :
    ∀ m, m ≤ s.length →
      flmLoop s (b2jFun s) 0 s.length (List.range' 0 m) ((0, 0, 0), fun _ => 0)
      = ((0, 0, m), dgFun s m) := by
  intro m
  induction m with
  | zero => intro _; rfl
  | succ m ih =>
      intro hm
      have hconcat : List.range' 0 (m + 1) = List.range' 0 m ++ [m] := by
        rw [List.range'_concat]
        simp
      rw [hconcat, flmLoop_append, ih (by omega)]
      show flmLoop s (b2jFun s) 0 s.length [m] ((0, 0, m), dgFun s m)
        = ((0, 0, m + 1), dgFun s (m + 1))
      simp only [flmLoop]
      rw [b2jFun_eq_b2jAll hn]
      have hjs : (b2jAll s (charAt s m)).filter
          (fun j => decide (0 ≤ j) && decide (j < s.length)) = selfJs s m := rfl
      rw [hjs]
      rw [flmRowBest_self s m (by omega)]
      rfl

/-- The upward extension loop stops immediately at the range end. -/
theorem extendHi_stop (a b : List Char) (ahi bhi : Nat) :
    ∀ (fuel : Nat) (bi bj bs : Nat), ¬(bi + bs < ahi) →
      extendHi a b ahi bhi fuel (bi, bj, bs) = (bi, bj, bs) := by
  intro fuel bi bj bs h
  cases fuel with
  | zero => rfl
  | succ fuel =>
      simp only [extendHi]
      rw [if_neg]
      intro hc
      exact h hc.1

/-- find_longest_match of a short string against itself returns the
whole-string block. -/
theorem flm_self (s : List Char) (hn : s.length < 200) :
    find_longest_match s s (b2jFun s) 0 s.length 0 s.length = (0, 0, s.length) := by
  unfold find_longest_match
  have h0 : s.length - 0 = s.length := by omega
  rw [h0, flmLoop_self s hn s.length (le_refl _)]
  show extendHi s s s.length s.length s.length
    (extendLo s s 0 0 0 (0, 0, s.length)) = (0, 0, s.length)
  show extendHi s s s.length s.length s.length (0, 0, s.length) = (0, 0, s.length)
  exact extendHi_stop s s s.length s.length s.length 0 0 s.length (by omega)

/-- The matching total of a short string against itself is its length. -/
theorem seqMatches_self (s : List Char) (hs : s ≠ []) (hn : s.length < 200) :
    seqMatches s s = s.length := by
  unfold seqMatches
  show matchingTotal s s (b2jFun s) (s.length + s.length + 1) 0 s.length 0 s.length
    = s.length
  simp only [matchingTotal]
  rw [flm_self s hn]
  have hne : s.length ≠ 0 := by
    intro h
    exact hs (List.eq_nil_of_length_eq_zero h)
  rw [if_neg (by simpa using hne)]
  simp

/-- SequenceMatcher.ratio of a short nonempty string with itself is 1. -/
theorem seqRatio_self (s : List Char) (hs : s ≠ []) (hn : s.length < 200) :
    seqRatio s s = 1 := by
  unfold seqRatio
  have hne : s.length ≠ 0 := by
    intro h
    exact hs (List.eq_nil_of_length_eq_zero h)
  rw [if_neg (by omega)]
  rw [seqMatches_self s hs hn]
  have hq : ((s.length : ℚ)) ≠ 0 := by exact_mod_cast hne
  field_simp
  ring

/-- A nonempty string has a nonempty character list. -/
theorem str_data_ne {s : String} (h : s ≠ "") : s.data ≠ [] := by
  intro hd
  apply h
  cases s with
  | mk data =>
      rw [show data = [] from hd]

/-- C4 amended: similarity(x, x) = 1.0 holds for every name whose
normalized form is non-empty (established here below the stdlib
autojunk threshold of 200 characters); when either normalized form is
empty both orders give 0.0; and similarity is symmetric whenever the
two normalized forms coincide.  Unrestricted reflexivity and
unrestricted symmetry are refuted by C4_similarity_counterexample. -/
theorem C4_similarity_amended :
    (∀ x : String, normalize_name x ≠ "" → (normalize_name x).length < 200 →
        calculate_name_similarity x x = 1)
    ∧ (∀ a b : String, normalize_name a = "" ∨ normalize_name b = "" →
        calculate_name_similarity a b = 0 ∧ calculate_name_similarity b a = 0)
    ∧ (∀ a b : String, normalize_name a = normalize_name b →
        calculate_name_similarity a b = calculate_name_similarity b a) := by
  refine ⟨?_, ?_, ?_⟩
  · intro x hne hlen
    unfold calculate_name_similarity
    simp only []
    rw [if_neg (by intro h; rcases h with h | h <;> exact hne h)]
    exact seqRatio_self _ (str_data_ne hne) hlen
  · intro a b h
    constructor
    · unfold calculate_name_similarity
      simp only []
      rw [if_pos h]
    · unfold calculate_name_similarity
      simp only []
      rw [if_pos h.symm]
  · intro a b h
    unfold calculate_name_similarity
    simp only [h]

/-- Similarity of the asymmetry pair, left to right. -/
theorem simAbaBabba : calculate_name_similarity ("aba") ("babba") = mkRat 3 4 := by
  have hn1 : normalize_name ("aba") = "aba" := by decide
  have hn2 : normalize_name ("babba") = "babba" := by decide
  unfold calculate_name_similarity
  simp only []
  rw [hn1, hn2]
  rw [if_neg (by decide : ¬(("aba" : String) = "" ∨ ("babba" : String) = ""))]
  unfold seqRatio
  rw [(by decide : seqMatches ("aba").data ("babba").data = 3)]
  rw [if_neg (by decide : ¬((String.data ("aba")).length + (String.data ("babba")).length = 0))]
  rw [(by decide : (String.data ("aba")).length = 3)]
  rw [(by decide : (String.data ("babba")).length = 5)]
  rw [Rat.mkRat_eq_div]
  push_cast
  norm_num

/-- Similarity of the asymmetry pair, right to left. -/
theorem simBabbaAba : calculate_name_similarity ("babba") ("aba") = mkRat 1 2 := by
  have hn1 : normalize_name ("babba") = "babba" := by decide
  have hn2 : normalize_name ("aba") = "aba" := by decide
  unfold calculate_name_similarity
  simp only []
  rw [hn1, hn2]
  rw [if_neg (by decide : ¬(("babba" : String) = "" ∨ ("aba" : String) = ""))]
  unfold seqRatio
  rw [(by decide : seqMatches ("babba").data ("aba").data = 2)]
  rw [if_neg (by decide : ¬((String.data ("babba")).length + (String.data ("aba")).length = 0))]
  rw [(by decide : (String.data ("babba")).length = 5)]
  rw [(by decide : (String.data ("aba")).length = 3)]
  rw [Rat.mkRat_eq_div]
  push_cast
  norm_num

/-- C4 counterexample: the nonempty name made only of the stopword
the has similarity 0.0 with itself, not 1.0; and SequenceMatcher is
not symmetric: similarity(aba, babba) = 0.75 while
similarity(babba, aba) = 0.5, exactly as CPython difflib computes. -/
theorem C4_similarity_counterexample :
    calculate_name_similarity ("the") ("the") = 0
    ∧ calculate_name_similarity ("aba") ("babba")
        ≠ calculate_name_similarity ("babba") ("aba") := by
  constructor
  · decide
  · rw [simAbaBabba, simBabbaAba]
    rw [Rat.mkRat_eq_div, Rat.mkRat_eq_div]
    norm_num

/-- C4 witness: the amended properties evaluated on concrete names. -/
theorem C4_similarity_amended_witness :
    (normalize_name ("dishoom") ≠ "" ∧ (normalize_name ("dishoom")).length < 200
      ∧ calculate_name_similarity ("dishoom") ("dishoom") = 1)
    ∧ ((normalize_name ("the") = "" ∨ normalize_name ("xyz") = "")
      ∧ calculate_name_similarity ("the") ("xyz") = 0
      ∧ calculate_name_similarity ("xyz") ("the") = 0)
    ∧ (normalize_name ("Cafe Alpha") = normalize_name ("alpha")
      ∧ calculate_name_similarity ("Cafe Alpha") ("alpha")
          = calculate_name_similarity ("alpha") ("Cafe Alpha")) :=
  ⟨⟨by decide, by decide,
    C4_similarity_amended.1 ("dishoom") (by decide) (by decide)⟩,
   ⟨by decide,
    (C4_similarity_amended.2.1 ("the") ("xyz") (by decide)).1,
    (C4_similarity_amended.2.1 ("the") ("xyz") (by decide)).2⟩,
   ⟨by decide,
    C4_similarity_amended.2.2 ("Cafe Alpha") ("alpha") (by decide)⟩⟩


/-- The candidate record updated with the resolved page data. -/
def resolvedCand (c : Cand) (g : GeoResult) (fu : String) : Cand :=
  { url := fu, name := c.name, lat := g.lat, lng := g.lng,
    address := g.address, images := g.images }

/-- The area-match flag computed for a validated candidate. -/
def areaFlag (area : Option String) (g : GeoResult) : Bool :=
  if isTruthyS area && isTruthyS g.address then
    check_area_match (area.getD ("")) (g.address.getD (""))
  else false

/-- C8 amended: in the per-candidate loop, a candidate surviving name
check and page validation is distance-rejected exactly when all four
coordinate values are truthy (non-null and nonzero) and the
haversine result exceeds 1000 m; when any of the four is null or
exactly zero, no distance is computed and the candidate is scored
with distance None.  Knownness in the claim must thus be read as
Python truthiness: a legitimate coordinate of 0.0 (the prime
meridian) disables the distance check, as the counterexample shows. -/
theorem C8_distance_truthiness_rule :
    ∀ (env : SearchEnv) (qname : String) (latitude longitude : Option ℚ)
      (area : Option String) (c : Cand) (cs : List Cand) (fu : String),
      ¬(calculate_name_similarity qname c.name < MIN_NAME_SIMILARITY) →
      (env.geo c.url).url = Option.some fu →
      ((isTruthyQ latitude && isTruthyQ longitude
          && isTruthyQ (env.geo c.url).lat && isTruthyQ (env.geo c.url).lng) = true →
        (MAX_DISTANCE_METERS < env.dist (latitude.getD 0) (longitude.getD 0)
            ((env.geo c.url).lat.getD 0) ((env.geo c.url).lng.getD 0) →
          scoreCandidates env qname latitude longitude area (c :: cs)
            = ((scoreCandidates env qname latitude longitude area cs).1,
                c.url :: (scoreCandidates env qname latitude longitude area cs).2))
        ∧ (¬(MAX_DISTANCE_METERS < env.dist (latitude.getD 0) (longitude.getD 0)
            ((env.geo c.url).lat.getD 0) ((env.geo c.url).lng.getD 0)) →
          scoreCandidates env qname latitude longitude area (c :: cs)
            = ({ cand := resolvedCand c (env.geo c.url) fu,
                 name_similarity := calculate_name_similarity qname c.name,
                 distance_m := Option.some (env.dist (latitude.getD 0) (longitude.getD 0)
                   ((env.geo c.url).lat.getD 0) ((env.geo c.url).lng.getD 0)),
                 area_match := areaFlag area (env.geo c.url),
                 confidence := calculate_confidence_score
                   (calculate_name_similarity qname c.name)
                   (areaFlag area (env.geo c.url))
                   (Option.some (env.dist (latitude.getD 0) (longitude.getD 0)
                     ((env.geo c.url).lat.getD 0) ((env.geo c.url).lng.getD 0))) }
                :: (scoreCandidates env qname latitude longitude area cs).1,
                c.url :: (scoreCandidates env qname latitude longitude area cs).2)))
      ∧ ((isTruthyQ latitude && isTruthyQ longitude
          && isTruthyQ (env.geo c.url).lat && isTruthyQ (env.geo c.url).lng) = false →
        scoreCandidates env qname latitude longitude area (c :: cs)
          = ({ cand := resolvedCand c (env.geo c.url) fu,
               name_similarity := calculate_name_similarity qname c.name,
               distance_m := Option.none,
               area_match := areaFlag area (env.geo c.url),
               confidence := calculate_confidence_score
                 (calculate_name_similarity qname c.name)
                 (areaFlag area (env.geo c.url)) Option.none }
              :: (scoreCandidates env qname latitude longitude area cs).1,
              c.url :: (scoreCandidates env qname latitude longitude area cs).2)) := by
  intro env qname latitude longitude area c cs fu hsim hfu
  constructor
  · intro htruthy
    constructor
    · intro hd
      simp only [scoreCandidates]
      rw [if_neg hsim, hfu]
      simp only [htruthy, if_pos]
      rw [if_pos hd]
    · intro hd
      simp only [scoreCandidates]
      rw [if_neg hsim, hfu]
      simp only [htruthy, if_pos]
      rw [if_neg hd]
      rfl
  · intro htruthy
    simp only [scoreCandidates]
    rw [if_neg hsim, hfu]
    simp only [htruthy]
    rw [if_neg (by simp : ¬((false : Bool) = true))]
    rfl

/-- Search world of the C8 counterexample: the candidate page exposes
known nonzero coordinates, but the haversine collaborator would
report 5000 m for any pair of points. -/
def c8SearchEnvEx : SearchEnv :=
  { searchPage := Except.ok [{ href := "/Restaurant_Review-x", text := "Zedi" }],
    geo := fun _ =>
      { url := Option.some ("https://www.tripadvisor.co.uk/Restaurant_Review-x"),
        lat := Option.some 42, lng := Option.some 1,
        address := Option.some ("1 Soho Square, Soho") },
    dist := fun _ _ _ _ => 5000 }

/-- The C8 candidate after page resolution. -/
def c8CandResolved : Cand :=
  { url := "https://www.tripadvisor.co.uk/Restaurant_Review-x", name := "Zedi",
    lat := Option.some 42, lng := Option.some 1,
    address := Option.some ("1 Soho Square, Soho") }

/-- Its scored form: no distance recorded despite known coordinates. -/
def c8ScoredEx : Scored :=
  { cand := c8CandResolved, name_similarity := 1, distance_m := Option.none,
    area_match := true, confidence := mkRat 4 5 }

/-- Candidate scoring in the C8 counterexample world: the zero
longitude suppresses the distance check. -/
theorem scoreC8Eval :
    scoreCandidates c8SearchEnvEx ("Zedi") (Option.some 51) (Option.some 0)
      (Option.some ("Soho"))
      [{ url := "https://www.tripadvisor.co.uk/Restaurant_Review-x", name := "Zedi" }]
    = ([c8ScoredEx], ["https://www.tripadvisor.co.uk/Restaurant_Review-x"]) := by
  simp only [scoreCandidates, simZediSelf, c8SearchEnvEx]
  rw [if_neg (by unfold MIN_NAME_SIMILARITY; rw [Rat.mkRat_eq_div]; norm_num :
    ¬((1:ℚ) < MIN_NAME_SIMILARITY))]
  simp only [isTruthyQ]
  rw [if_neg (by decide :
    ¬((decide ((51:ℚ) ≠ 0) && decide ((0:ℚ) ≠ 0) && decide ((42:ℚ) ≠ 0) && decide ((1:ℚ) ≠ 0)) = true))]
  simp only [isTruthyS]
  rw [(by decide : (if (decide (("Soho":String) ≠ "") && decide (("1 Soho Square, Soho":String) ≠ "")) = true then check_area_match ((Option.some ("Soho")).getD "") ((Option.some ("1 Soho Square, Soho")).getD "") else false) = true)]
  rw [confAreaNoDistEval]
  rfl

/-- C8 counterexample: query coordinates (51, 0) are known and the
candidate page exposes known coordinates, the haversine collaborator
returns 5000 m for every pair of points, yet the candidate is not
dropped: the search accepts it with distance_m = None, because the
guard treats the longitude 0.0 as missing.  The claim requires the
candidate to be dropped (5000 > 1000). -/
theorem C8_distance_counterexample :
    ((search_tripadvisor_validated c8SearchEnvEx ("Zedi") ("London")
        (Option.some ("Soho")) (Option.some 51) (Option.some 0)).1.status = "found"
      ∧ (search_tripadvisor_validated c8SearchEnvEx ("Zedi") ("London")
        (Option.some ("Soho")) (Option.some 51) (Option.some 0)).1.distance_m
          = Option.none)
    ∧ (c8SearchEnvEx.geo ("u")).lat = Option.some 42
    ∧ (c8SearchEnvEx.geo ("u")).lng = Option.some 1
    ∧ (∀ q1 q2 q3 q4 : ℚ, c8SearchEnvEx.dist q1 q2 q3 q4 = 5000)
    ∧ (5000 : ℚ) > MAX_DISTANCE_METERS := by
  have main : (search_tripadvisor_validated c8SearchEnvEx ("Zedi") ("London")
      (Option.some ("Soho")) (Option.some 51) (Option.some 0)).1
      = { url := Option.some ("https://www.tripadvisor.co.uk/Restaurant_Review-x"),
          status := "found", confidence := Option.some (mkRat 4 5),
          distance_m := Option.none,
          match_notes := String.intercalate (" | ")
            (["name_sim=" ++ pyFloatRepr 1] ++ ["area_match=true"]),
          images := [] } := by
    unfold search_tripadvisor_validated
    rw [show c8SearchEnvEx.searchPage
      = Except.ok [{ href := "/Restaurant_Review-x", text := "Zedi" }] from rfl]
    simp only []
    rw [collectZediEval]
    rw [if_neg (by decide : ¬([c3CandEx] = []))]
    rw [show c3CandEx
      = { url := "https://www.tripadvisor.co.uk/Restaurant_Review-x", name := "Zedi" }
      from rfl] at *
    rw [scoreC8Eval]
    simp only [pyMaxBy]
    rw [if_neg (by decide : ¬(c8ScoredEx.confidence < MIN_CONFIDENCE_SCORE))]
    rfl
  refine ⟨⟨by rw [main], by rw [main]⟩, rfl, rfl, fun _ _ _ _ => rfl, ?_⟩
  unfold MAX_DISTANCE_METERS
  norm_num

/-- The witness query passes the hard name-similarity check. -/
theorem simZediGeMin :
    ¬(calculate_name_similarity ("Zedi") ("Zedi") < MIN_NAME_SIMILARITY) := by
  rw [simZediSelf]
  unfold MIN_NAME_SIMILARITY
  rw [Rat.mkRat_eq_div]
  norm_num

/-- C8 witness: the truthiness rule evaluated in the counterexample
world, in the branch where the zero longitude makes the coordinate
guard false. -/
theorem C8_distance_truthiness_rule_witness :
    (¬(calculate_name_similarity ("Zedi") (c3CandEx.name) < MIN_NAME_SIMILARITY)
      ∧ (c8SearchEnvEx.geo c3CandEx.url).url
          = Option.some ("https://www.tripadvisor.co.uk/Restaurant_Review-x")
      ∧ (isTruthyQ (Option.some (51:ℚ)) && isTruthyQ (Option.some (0:ℚ))
          && isTruthyQ (c8SearchEnvEx.geo c3CandEx.url).lat
          && isTruthyQ (c8SearchEnvEx.geo c3CandEx.url).lng) = false)
    ∧ scoreCandidates c8SearchEnvEx ("Zedi") (Option.some 51) (Option.some 0)
        (Option.some ("Soho")) (c3CandEx :: [])
      = ({ cand := resolvedCand c3CandEx (c8SearchEnvEx.geo c3CandEx.url)
             ("https://www.tripadvisor.co.uk/Restaurant_Review-x"),
           name_similarity := calculate_name_similarity ("Zedi") (c3CandEx.name),
           distance_m := Option.none,
           area_match := areaFlag (Option.some ("Soho")) (c8SearchEnvEx.geo c3CandEx.url),
           confidence := calculate_confidence_score
             (calculate_name_similarity ("Zedi") (c3CandEx.name))
             (areaFlag (Option.some ("Soho")) (c8SearchEnvEx.geo c3CandEx.url))
             Option.none }
          :: (scoreCandidates c8SearchEnvEx ("Zedi") (Option.some 51) (Option.some 0)
              (Option.some ("Soho")) []).1,
          c3CandEx.url :: (scoreCandidates c8SearchEnvEx ("Zedi") (Option.some 51)
              (Option.some 0) (Option.some ("Soho")) []).2) :=
  ⟨⟨simZediGeMin, rfl, by decide⟩,
   (C8_distance_truthiness_rule c8SearchEnvEx ("Zedi") (Option.some 51)
      (Option.some 0) (Option.some ("Soho")) c3CandEx []
      ("https://www.tripadvisor.co.uk/Restaurant_Review-x")
      simZediGeMin rfl).2 (by decide)⟩
